import Mathlib

set_option maxHeartbeats 1000000

/-!
Verification of the 0xVM core (CPU execution engine and memory-mapping
subsystem) from the `0x` repository.  Rust sources embedded here:
`src/0xVM/src/memory/memory_mapper.rs`,
`src/0xVM/src/cpu/cpu_struct.rs`,
`src/0xVM/src/cpu/instructions/bitwise_instructions.rs`.
Machine integers (`Word` = u32, `Byte` = u8) are embedded as `Nat` with
explicit reduction modulo 2^32 (resp. 2^8) where overflow matters.
Fatal faults (Rust panics) are embedded as `Option.none`.
-/

/-- The modulus of the VM's 32-bit words: 2^32. -/
def W32 : Nat := 4294967296

/-- Truncation of a natural number to a 32-bit word (u32 wrapping). -/
def wrap (x : Nat) : Nat := x % W32

/-- Wrapping 32-bit addition (Rust u32 `+`, which wraps in release builds;
the spec fixes all arithmetic to be wrapping). -/
def wadd (a b : Nat) : Nat := (a + b) % W32

/-- Wrapping 32-bit subtraction (Rust u32 `-` under the spec's wrapping
arithmetic convention). -/
def wsub (a b : Nat) : Nat := (a + (W32 - b % W32)) % W32

/-- Wrapping 32-bit multiplication (Rust `u32::wrapping_mul`). -/
def wmul (a b : Nat) : Nat := (a * b) % W32

/-- Rust `u32::wrapping_shl`: shift left by the amount taken modulo 32,
high bits discarded. -/
def wshl32 (x n : Nat) : Nat := (x * 2 ^ (n % 32)) % W32

/-- Rust `u32::wrapping_shr`: logical shift right by the amount modulo 32. -/
def wshr32 (x n : Nat) : Nat := x / 2 ^ (n % 32)

/-- Rust `u32::rotate_left`: rotate the 32 bits left by `n % 32`; the low
`32 - n % 32` bits of `x` move up and the high `n % 32` bits wrap to the
bottom.  Intended for `x < W32`. -/
def rotl32 (x n : Nat) : Nat :=
  (x % 2 ^ (32 - n % 32)) * 2 ^ (n % 32) + x / 2 ^ (32 - n % 32)

/-- Rust `u32::rotate_right`: rotate the 32 bits right by `n % 32`. -/
def rotr32 (x n : Nat) : Nat :=
  (x % 2 ^ (n % 32)) * 2 ^ (32 - n % 32) + x / 2 ^ (n % 32)

/-- Rust `!x` on u32: bitwise complement, `0xFFFFFFFF - x` for `x < W32`. -/
def wnot (x : Nat) : Nat := (W32 - 1) - x % W32

/-- Number of set bits in the binary representation of a natural number. -/
def popcount (n : Nat) : Nat :=
  if n = 0 then 0 else n % 2 + popcount (n / 2)
decreasing_by exact Nat.div_lt_self (Nat.pos_of_ne_zero (by assumption)) (by omega)

/-! ## Byte stores

A byte store is a function from addresses to bytes.  `byteAt` reads one
byte (reduced modulo 2^8), `beGet`/`beSet` read and write a 32-bit word
in big-endian order (high byte at the lower address), exactly as the
spec fixes for the `Memory` primitive. -/

/-- The byte stored at address `a` (reduced to 8 bits). -/
def byteAt (m : Nat → Nat) (a : Nat) : Nat := m a % 256

/-- Pointwise update of a byte store at a single address. -/
def setB (m : Nat → Nat) (a v : Nat) : Nat → Nat :=
  fun x => if x = a then v else m x

/-- Big-endian read of the 32-bit word at address `a`. -/
def beGet (m : Nat → Nat) (a : Nat) : Nat :=
  byteAt m a * 16777216 + byteAt m (a + 1) * 65536 +
    byteAt m (a + 2) * 256 + byteAt m (a + 3)

/-- Big-endian write of the 32-bit word `v` at address `a`. -/
def beSet (m : Nat → Nat) (a v : Nat) : Nat → Nat :=
  setB (setB (setB (setB m a (v / 16777216 % 256)) (a + 1) (v / 65536 % 256))
      (a + 2) (v / 256 % 256)) (a + 3) (v % 256)

theorem byteAt_lt (m : Nat → Nat) (a : Nat) : byteAt m a < 256 :=
  Nat.mod_lt _ (by omega)

theorem beGet_lt (m : Nat → Nat) (a : Nat) : beGet m a < W32 := by
  have h0 := byteAt_lt m a
  have h1 := byteAt_lt m (a + 1)
  have h2 := byteAt_lt m (a + 2)
  have h3 := byteAt_lt m (a + 3)
  unfold beGet W32
  omega

theorem byteAt_setB_same (m : Nat → Nat) (a v : Nat) :
    byteAt (setB m a v) a = v % 256 := by
  simp [byteAt, setB]

theorem byteAt_setB_ne (m : Nat → Nat) (a v x : Nat) (h : x ≠ a) :
    byteAt (setB m a v) x = byteAt m x := by
  simp [byteAt, setB, h]

theorem byteAt_beSet_out (m : Nat → Nat) (a v x : Nat)
    (h : x < a ∨ a + 3 < x) : byteAt (beSet m a v) x = byteAt m x := by
  unfold beSet
  rw [byteAt_setB_ne _ _ _ _ (by omega), byteAt_setB_ne _ _ _ _ (by omega),
    byteAt_setB_ne _ _ _ _ (by omega), byteAt_setB_ne _ _ _ _ (by omega)]

theorem beGet_beSet_same (m : Nat → Nat) (a v : Nat) :
    beGet (beSet m a v) a = v % W32 := by
  have h3 : byteAt (beSet m a v) (a + 3) = v % 256 := by
    unfold beSet; rw [byteAt_setB_same]; omega
  have h2 : byteAt (beSet m a v) (a + 2) = v / 256 % 256 := by
    unfold beSet
    rw [byteAt_setB_ne _ _ _ _ (by omega), byteAt_setB_same]; omega
  have h1 : byteAt (beSet m a v) (a + 1) = v / 65536 % 256 := by
    unfold beSet
    rw [byteAt_setB_ne _ _ _ _ (by omega), byteAt_setB_ne _ _ _ _ (by omega),
      byteAt_setB_same]
    omega
  have h0 : byteAt (beSet m a v) a = v / 16777216 % 256 := by
    unfold beSet
    rw [byteAt_setB_ne _ _ _ _ (by omega), byteAt_setB_ne _ _ _ _ (by omega),
      byteAt_setB_ne _ _ _ _ (by omega), byteAt_setB_same]
    omega
  unfold beGet
  rw [h0, h1, h2, h3]
  unfold W32
  omega

theorem beGet_beSet_out (m : Nat → Nat) (a v b : Nat)
    (h : b + 4 ≤ a ∨ a + 4 ≤ b) : beGet (beSet m a v) b = beGet m b := by
  unfold beGet
  rw [byteAt_beSet_out _ _ _ _ (by omega), byteAt_beSet_out _ _ _ _ (by omega),
    byteAt_beSet_out _ _ _ _ (by omega), byteAt_beSet_out _ _ _ _ (by omega)]

/-! ## The Memory primitive

Modelled from the spec: the `Memory` struct (spec §3, §4.1) is part of
this repository but its source file is not under `src/`; only its users
(`cpu_struct.rs`) are.  Per the spec it is an owned byte buffer of a
fixed declared size; all byte and word accesses are bounds-checked
(out-of-range access is a fatal fault); words are big-endian (high byte
at the lower address); `or_set_byte`/`and_set_byte` perform in-place
bitwise update of a single byte. -/

structure Memory where
  size : Nat
  data : Nat → Nat

def Memory.get_byte (m : Memory) (a : Nat) : Option Nat :=
  if a < m.size then some (byteAt m.data a) else none

def Memory.set_byte (m : Memory) (a v : Nat) : Option Memory :=
  if a < m.size then some ⟨m.size, setB m.data a (v % 256)⟩ else none

def Memory.get_word (m : Memory) (a : Nat) : Option Nat :=
  if a + 3 < m.size then some (beGet m.data a) else none

def Memory.set_word (m : Memory) (a v : Nat) : Option Memory :=
  if a + 3 < m.size then some ⟨m.size, beSet m.data a v⟩ else none

def Memory.or_set_byte (m : Memory) (a mask : Nat) : Option Memory :=
  if a < m.size then
    some ⟨m.size, setB m.data a (byteAt m.data a ||| mask % 256)⟩
  else none

def Memory.and_set_byte (m : Memory) (a mask : Nat) : Option Memory :=
  if a < m.size then
    some ⟨m.size, setB m.data a (byteAt m.data a &&& mask % 256)⟩
  else none

/-! ## The memory mapper

Embedded from `src/0xVM/src/memory/memory_mapper.rs`.  The device type
is an abstract parameter `δ`; the four accessors of the `Device` trait
are supplied by a `DeviceOps` record.  The Rust field `end` is named
`stop` here (`end` is reserved in Lean).  A `panic!` is `none`. -/

structure Region (δ : Type) where
  device : δ
  start : Nat
  stop : Nat
  remap : Bool

structure MemoryMapper (δ : Type) where
  regions : List (Region δ)

structure DeviceOps (δ : Type) where
  dev_get_byte : δ → Nat → Nat
  dev_get_word : δ → Nat → Nat
  dev_set_byte : δ → Nat → Nat → δ
  dev_set_word : δ → Nat → Nat → δ

/-- The scan of `find_region`: first region (from the front) whose
`[start, stop)` contains `addr`, returned as an index. -/
def findRegionAux {δ : Type} (addr : Nat) : List (Region δ) → Nat → Option Nat
  | [], _ => none
  | r :: rs, i =>
    if r.start ≤ addr ∧ addr < r.stop then some i
    else findRegionAux addr rs (i + 1)

def MemoryMapper.find_region {δ : Type} (m : MemoryMapper δ) (addr : Nat) :
    Option Nat :=
  findRegionAux addr m.regions 0

def MemoryMapper.get_region_and_addr {δ : Type} (m : MemoryMapper δ)
    (addr : Nat) : Option (Nat × Nat) :=
  match m.find_region addr with
  | none => none
  | some i =>
    match m.regions[i]? with
    | none => none
    | some r => some (i, if r.remap then addr - r.start else addr)

def MemoryMapper.get_byte {δ : Type} (ops : DeviceOps δ) (m : MemoryMapper δ)
    (addr : Nat) : Option Nat :=
  match m.get_region_and_addr addr with
  | none => none
  | some (i, fa) =>
    match m.regions[i]? with
    | none => none
    | some r => some (ops.dev_get_byte r.device fa)

def MemoryMapper.get_word {δ : Type} (ops : DeviceOps δ) (m : MemoryMapper δ)
    (addr : Nat) : Option Nat :=
  match m.get_region_and_addr addr with
  | none => none
  | some (i, fa) =>
    match m.regions[i]? with
    | none => none
    | some r => some (ops.dev_get_word r.device fa)

def MemoryMapper.set_byte {δ : Type} (ops : DeviceOps δ) (m : MemoryMapper δ)
    (addr v : Nat) : Option (MemoryMapper δ) :=
  match m.get_region_and_addr addr with
  | none => none
  | some (i, fa) =>
    match m.regions[i]? with
    | none => none
    | some r =>
      some ⟨m.regions.set i { r with device := ops.dev_set_byte r.device fa v }⟩

def MemoryMapper.set_word {δ : Type} (ops : DeviceOps δ) (m : MemoryMapper δ)
    (addr v : Nat) : Option (MemoryMapper δ) :=
  match m.get_region_and_addr addr with
  | none => none
  | some (i, fa) =>
    match m.regions[i]? with
    | none => none
    | some r =>
      some ⟨m.regions.set i { r with device := ops.dev_set_word r.device fa v }⟩

/-- `map` inserts the new region at index 0, the front of the list
(`self.regions.insert(0, region)`). -/
def MemoryMapper.map {δ : Type} (m : MemoryMapper δ) (device : δ)
    (start stop : Nat) (remap : Bool) : MemoryMapper δ :=
  ⟨⟨device, start, stop, remap⟩ :: m.regions⟩

/-! ## Register offsets

Modelled from the spec: the `reg!` macro and the `REGISTERS` name-to-
offset table live in the `macros` crate and the crate root, which are
not under `src/`.  The spec fixes 13 registers (`REGISTER_COUNT = 13`,
register file size 52 bytes), each a word at a byte offset that is a
multiple of 4.  `push_state` in `cpu_struct.rs` pushes `get_reg(i * 4)`
for `i = 0..8` and calls these `r1..r8`, so the general registers sit at
offsets 0,4,...,28; the five special registers occupy the remaining
word-aligned offsets 32..48.  Their relative order is not fixed by the
visible source; the choice below is immaterial to every claim (all that
matters is that the offsets are distinct, word-aligned and in bounds). -/

def RPC : Nat := 32
def RACC : Nat := 36
def RSR : Nat := 40
def RSP : Nat := 44
def RFP : Nat := 48

/-! ## The CPU

Embedded from `src/0xVM/src/cpu/cpu_struct.rs`.  The CPU owns a memory
mapper; for the CPU-level theorems the mapper is instantiated with the
standard configuration of a single RAM-backed device mapped over the
whole 32-bit address space (`remap` irrelevant), so the mapper's
`get_byte`/`get_word`/`set_byte`/`set_word` become big-endian accesses
`byteAt`/`beGet`/`beSet` on the byte store `mem` and never miss.  The
debug-TUI cache fields (`_debug_*`) carry no execution semantics and
are omitted.  A Rust `panic!` (fatal fault) is `none`. -/

structure CPU where
  mem : Nat → Nat
  registers : Memory
  stackframe_size : Nat
  halt_signal : Bool
  stack_start : Nat
  stack_size : Nat
  stack_set : Bool

/-- Gets the val of the register with the given addr
(`self.registers.get_word(addr)`). -/
def CPU.get_reg (c : CPU) (addr : Nat) : Option Nat :=
  c.registers.get_word addr

/-- Sets the val of the register with the given addr
(`self.registers.set_word(addr, val)`). -/
def CPU.set_reg (c : CPU) (addr v : Nat) : Option CPU :=
  (c.registers.set_word addr v).map fun r => { c with registers := r }

/-- `CPU::new`: fresh zeroed register file of size `REGISTER_COUNT * 4 =
52`, then `set_reg(pc, ...)` (always in bounds, hence infallible). -/
def CPU.new (mem : Nat → Nat) (pc : Nat) : CPU :=
  { mem := mem
    registers := ⟨52, beSet (fun _ => 0) RPC pc⟩
    stackframe_size := 0
    halt_signal := false
    stack_start := 0
    stack_size := 0
    stack_set := false }

/-- `CPU::set_stack`: record the bounds and point `sp` and `fp` at
`stack_addr - 4` (4 bytes to store a 32-bit addr). -/
def CPU.set_stack (c : CPU) (stack_addr stack_size : Nat) : Option CPU := do
  let c1 := { c with stack_start := stack_addr, stack_size := stack_size }
  let c2 ← c1.set_reg RSP (wsub stack_addr 4)
  let c3 ← c2.set_reg RFP (wsub stack_addr 4)
  pure { c3 with stack_set := true }

/-- `CPU::update_sr`: set or clear bit 0 of the byte at the `sr` offset
according to `post == 0` (`or_set_byte(sr_addr, 0x01)` /
`and_set_byte(sr_addr, 0xFE)`), then set or clear bit 1 according to
`pre > post` (`or_set_byte(sr_addr, 0x02)` / `and_set_byte(sr_addr,
0xFD)`). -/
def CPU.update_sr (c : CPU) (pre post : Nat) : Option CPU := do
  let r1 ← if post = 0 then c.registers.or_set_byte RSR 0x01
           else c.registers.and_set_byte RSR 0xFE
  let r2 ← if pre > post then r1.or_set_byte RSR 0x02
           else r1.and_set_byte RSR 0xFD
  pure { c with registers := r2 }

/-- `CPU::get_status_flag`: `self.get_reg(reg!("sr")) &
(1u32.wrapping_shl(n as Word)) != 0`.  The read of `sr` is at the fixed
in-bounds offset 40, hence infallible; `wrapping_shl` shifts by
`n % 32`. -/
def CPU.get_status_flag (c : CPU) (n : Nat) : Bool :=
  beGet c.registers.data RSR &&& (1 <<< (n % 32)) ≠ 0

/-- `CPU::fetch_byte`: read the byte at `pc` from the mapper and
increment `pc` by 1. -/
def CPU.fetch_byte (c : CPU) : Option (Nat × CPU) := do
  let pcv ← c.get_reg RPC
  let c2 ← c.set_reg RPC (wrap (pcv + 1))
  pure (byteAt c2.mem pcv, c2)

/-- `CPU::fetch_word`: read the big-endian word at `pc` from the mapper
and increment `pc` by 4. -/
def CPU.fetch_word (c : CPU) : Option (Nat × CPU) := do
  let pcv ← c.get_reg RPC
  let c2 ← c.set_reg RPC (wrap (pcv + 4))
  pure (beGet c2.mem pcv, c2)

/-- `CPU::push`: stack-overflow fault if `sp - 4 < stack_start -
stack_size` (u32 wrapping subtractions), else write the word at `sp`
via the mapper, decrement `sp` by 4 and increment `stackframe_size`
by 4. -/
def CPU.push (c : CPU) (v : Nat) : Option CPU := do
  let sp ← c.get_reg RSP
  if wsub sp 4 < wsub c.stack_start c.stack_size then none
  else do
    let c2 := { c with mem := beSet c.mem sp v }
    let c3 ← c2.set_reg RSP (wsub sp 4)
    pure { c3 with stackframe_size := wadd c3.stackframe_size 4 }

/-- `CPU::pop`: compute `next = sp + 4`; stack-underflow fault if
`next > stack_start - 3`; else set `sp ← next`, decrement
`stackframe_size` by 4 and return the word at `next`. -/
def CPU.pop (c : CPU) : Option (Nat × CPU) := do
  let sp ← c.get_reg RSP
  let next := wrap (sp + 4)
  if next > wsub c.stack_start 3 then none
  else do
    let c2 ← c.set_reg RSP next
    let c3 := { c2 with stackframe_size := wsub c2.stackframe_size 4 }
    pure (beGet c3.mem next, c3)

/-- The `for i in 0..8` loop of `push_state`: push the registers whose
offsets are `4 * i` for the listed indices, in order. -/
def CPU.pushRegs (c : CPU) : List Nat → Option CPU
  | [] => pure c
  | i :: rest => do
    let v ← c.get_reg (i * 4)
    let c2 ← c.push v
    c2.pushRegs rest

/-- `CPU::push_state` (invoked on CALL/CALLR): push `r1..r8`, then `pc`,
then `stackframe_size + 4`; set `fp ← sp`; reset `stackframe_size`. -/
def CPU.push_state (c : CPU) : Option CPU := do
  let c1 ← c.pushRegs [0, 1, 2, 3, 4, 5, 6, 7]
  let pcv ← c1.get_reg RPC
  let c2 ← c1.push pcv
  let c3 ← c2.push (wadd c2.stackframe_size 4)
  let spv ← c3.get_reg RSP
  let c4 ← c3.set_reg RFP spv
  pure { c4 with stackframe_size := 0 }

/-- The `for i in (0..8).rev()` loop of `pop_state`: pop a word and
store it into register `4 * i`, for the listed indices in order. -/
def CPU.popRegsRev (c : CPU) : List Nat → Option CPU
  | [] => pure c
  | i :: rest => do
    let (v, c2) ← c.pop
    let c3 ← c2.set_reg (i * 4) v
    c3.popRegsRev rest

/-- The `for _ in 0..arg_count` loop of `pop_state`: discard `n` words. -/
def CPU.popN (c : CPU) : Nat → Option CPU
  | 0 => pure c
  | n + 1 => do
    let (_, c2) ← c.pop
    c2.popN n

/-- `CPU::pop_state` (invoked on RET): `sp ← fp`; pre-increment
`stackframe_size` by 4 (bugfix comment in the source: the decrement
inside the following `pop` must not underflow); pop into
`stackframe_size`; pop `pc`; pop `r8..r1`; pop `arg_count` and discard
that many further words; set `fp ← fp + stackframe_size`. -/
def CPU.pop_state (c : CPU) : Option CPU := do
  let fp_addr ← c.get_reg RFP
  let c1 ← c.set_reg RSP fp_addr
  let c2 := { c1 with stackframe_size := wadd c1.stackframe_size 4 }
  let (sfs, c3) ← c2.pop
  let c4 := { c3 with stackframe_size := sfs }
  let (pcv, c5) ← c4.pop
  let c6 ← c5.set_reg RPC pcv
  let c7 ← c6.popRegsRev [7, 6, 5, 4, 3, 2, 1, 0]
  let (arg_count, c8) ← c7.pop
  let c9 ← c8.popN arg_count
  c9.set_reg RFP (wadd fp_addr c9.stackframe_size)

/-! ## Bitwise instructions

Embedded from `src/0xVM/src/cpu/instructions/bitwise_instructions.rs`.
The `instr!`/`instr_helper!` macros give every two-operand bitwise
instruction one of two shapes: `rw` (register then literal word) and
`rr` (two registers); the result is stored into the FIRST register
operand and `update_sr(first_operand_value, result)` is called. -/

/-- The `rw` shape of the `instr!` macro: fetch a register address,
read it, fetch a literal word, apply `f`, store into that register and
update the status register. -/
def instrRW (f : Nat → Nat → Nat) (c : CPU) : Option CPU := do
  let (r_addr, c1) ← c.fetch_word
  let r_val ← c1.get_reg r_addr
  let (value, c2) ← c1.fetch_word
  let res := f r_val value
  let c3 ← c2.set_reg r_addr res
  c3.update_sr r_val res

/-- The `rr` shape of the `instr!` macro: fetch two register addresses,
read both, apply `f`, store into the first register and update the
status register. -/
def instrRR (f : Nat → Nat → Nat) (c : CPU) : Option CPU := do
  let (r1_addr, c1) ← c.fetch_word
  let (r2_addr, c2) ← c1.fetch_word
  let r1_val ← c2.get_reg r1_addr
  let r2_val ← c2.get_reg r2_addr
  let res := f r1_val r2_val
  let c3 ← c2.set_reg r1_addr res
  c3.update_sr r1_val res

def LSF (c : CPU) : Option CPU := instrRW wshl32 c
def LSFR (c : CPU) : Option CPU := instrRR wshl32 c
def RSF (c : CPU) : Option CPU := instrRW wshr32 c
def RSFR (c : CPU) : Option CPU := instrRR wshr32 c
def WLSF (c : CPU) : Option CPU := instrRW rotl32 c
def WLSFR (c : CPU) : Option CPU := instrRR rotl32 c
def WRSF (c : CPU) : Option CPU := instrRW rotr32 c
def WRSFR (c : CPU) : Option CPU := instrRR rotr32 c
def AND (c : CPU) : Option CPU := instrRW Nat.land c
def ANDR (c : CPU) : Option CPU := instrRR Nat.land c
def OR (c : CPU) : Option CPU := instrRW Nat.lor c
def ORR (c : CPU) : Option CPU := instrRR Nat.lor c
def XOR (c : CPU) : Option CPU := instrRW Nat.xor c
def XORR (c : CPU) : Option CPU := instrRR Nat.xor c

/-- `NOT r1`: bitwise complement of a single register, with
`update_sr(old_value, result)`. -/
def NOT (c : CPU) : Option CPU := do
  let (r_addr, c1) ← c.fetch_word
  let register_val ← c1.get_reg r_addr
  let res := wnot register_val
  let c2 ← c1.set_reg r_addr res
  c2.update_sr register_val res

/-! ## Move, subroutine, arithmetic and branch instructions

Modelled from the spec: the source files for these handler families
(`move_instructions.rs`, `subroutine_instructions.rs`,
`arithmetic_instructions.rs`, `conditional_instructions.rs`) are not
under `src/`; only their dispatch table in `cpu_struct.rs` is.  Each
handler follows the spec's opcode table (§4.7): fetch the operands in
the order shown, compute, mutate, return.  Arithmetic handlers write
the accumulator and call `update_sr(first_operand, result)`; division
by zero is a fatal fault. -/

def MOVR (c : CPU) : Option CPU := do
  let (w, c1) ← c.fetch_word
  let (r_addr, c2) ← c1.fetch_word
  c2.set_reg r_addr w

def MOVM (c : CPU) : Option CPU := do
  let (w, c1) ← c.fetch_word
  let (a, c2) ← c1.fetch_word
  pure { c2 with mem := beSet c2.mem a w }

def MOVRR (c : CPU) : Option CPU := do
  let (r1_addr, c1) ← c.fetch_word
  let (r2_addr, c2) ← c1.fetch_word
  let v ← c2.get_reg r1_addr
  c2.set_reg r2_addr v

def MOVRM (c : CPU) : Option CPU := do
  let (r_addr, c1) ← c.fetch_word
  let (a, c2) ← c1.fetch_word
  let v ← c2.get_reg r_addr
  pure { c2 with mem := beSet c2.mem a v }

def MOVMR (c : CPU) : Option CPU := do
  let (a, c1) ← c.fetch_word
  let (r_addr, c2) ← c1.fetch_word
  c2.set_reg r_addr (beGet c2.mem a)

/-- `MOVRPR r1, r2`: pointer read, `[r2] ← mem[[r1]]`. -/
def MOVRPR (c : CPU) : Option CPU := do
  let (r1_addr, c1) ← c.fetch_word
  let (r2_addr, c2) ← c1.fetch_word
  let p ← c2.get_reg r1_addr
  c2.set_reg r2_addr (beGet c2.mem p)

/-- `MOVROR r1, w, r2`: indexed read, `[r2] ← mem[[r1] + w]`. -/
def MOVROR (c : CPU) : Option CPU := do
  let (r1_addr, c1) ← c.fetch_word
  let (w, c2) ← c1.fetch_word
  let (r2_addr, c3) ← c2.fetch_word
  let p ← c3.get_reg r1_addr
  c3.set_reg r2_addr (beGet c3.mem (wadd p w))

def POP (c : CPU) : Option CPU := do
  let (r_addr, c1) ← c.fetch_word
  let (v, c2) ← c1.pop
  c2.set_reg r_addr v

def PUSH (c : CPU) : Option CPU := do
  let (w, c1) ← c.fetch_word
  c1.push w

def PUSHR (c : CPU) : Option CPU := do
  let (r_addr, c1) ← c.fetch_word
  let v ← c1.get_reg r_addr
  c1.push v

/-- Modelled from the spec: the LOAD/STORE opcode group (0x19..0x1E) is
referenced in the dispatch table but, as the spec itself records
(§4.7, §9), its operand widths and semantics are not fully specified by
the visible source; the spec directs implementers to treat the group as
byte-granular counterparts to the MOV family.  The modelling below
follows that sketch; the claims depend only on these handlers never
touching `halt_signal`. -/
def LOAD (c : CPU) : Option CPU := do
  let (w, c1) ← c.fetch_word
  let (r_addr, c2) ← c1.fetch_word
  c2.set_reg r_addr (w % 256)

def LOADR (c : CPU) : Option CPU := do
  let (r1_addr, c1) ← c.fetch_word
  let (r2_addr, c2) ← c1.fetch_word
  let v ← c2.get_reg r1_addr
  c2.set_reg r2_addr (v % 256)

def LOADM (c : CPU) : Option CPU := do
  let (a, c1) ← c.fetch_word
  let (r_addr, c2) ← c1.fetch_word
  c2.set_reg r_addr (byteAt c2.mem a)

def STORE (c : CPU) : Option CPU := do
  let (w, c1) ← c.fetch_word
  let (a, c2) ← c1.fetch_word
  pure { c2 with mem := setB c2.mem a (w % 256) }

def STORER (c : CPU) : Option CPU := do
  let (r_addr, c1) ← c.fetch_word
  let (a, c2) ← c1.fetch_word
  let v ← c2.get_reg r_addr
  pure { c2 with mem := setB c2.mem a (v % 256) }

def STOREM (c : CPU) : Option CPU := do
  let (a1, c1) ← c.fetch_word
  let (a2, c2) ← c1.fetch_word
  pure { c2 with mem := setB c2.mem a2 (byteAt c2.mem a1) }

def JMP (c : CPU) : Option CPU := do
  let (a, c1) ← c.fetch_word
  c1.set_reg RPC a

/-- `CALL a`: fetch the target (advancing `pc` past the operand, so the
saved `pc` is the return address), `push_state`, then `pc ← a`. -/
def CALL (c : CPU) : Option CPU := do
  let (a, c1) ← c.fetch_word
  let c2 ← c1.push_state
  c2.set_reg RPC a

def CALLR (c : CPU) : Option CPU := do
  let (r_addr, c1) ← c.fetch_word
  let a ← c1.get_reg r_addr
  let c2 ← c1.push_state
  c2.set_reg RPC a

def RET (c : CPU) : Option CPU := c.pop_state

/-- The `W, R` arithmetic shape (ADD, SUB, MULT): `acc ← f W [R]`;
`update_sr(W, acc)`. -/
def arithWR (f : Nat → Nat → Nat) (c : CPU) : Option CPU := do
  let (w, c1) ← c.fetch_word
  let (r_addr, c2) ← c1.fetch_word
  let rv ← c2.get_reg r_addr
  let res := f w rv
  let c3 ← c2.set_reg RACC res
  c3.update_sr w res

/-- The `R, W` arithmetic shape (SUBWR): `acc ← f [R] W`;
`update_sr([R], acc)`. -/
def arithRW (f : Nat → Nat → Nat) (c : CPU) : Option CPU := do
  let (r_addr, c1) ← c.fetch_word
  let rv ← c1.get_reg r_addr
  let (w, c2) ← c1.fetch_word
  let res := f rv w
  let c3 ← c2.set_reg RACC res
  c3.update_sr rv res

/-- The `R1, R2` arithmetic shape (ADDR, SUBR, MULTR): `acc ← f [R1]
[R2]`; `update_sr([R1], acc)`. -/
def arithRR (f : Nat → Nat → Nat) (c : CPU) : Option CPU := do
  let (r1_addr, c1) ← c.fetch_word
  let (r2_addr, c2) ← c1.fetch_word
  let v1 ← c2.get_reg r1_addr
  let v2 ← c2.get_reg r2_addr
  let res := f v1 v2
  let c3 ← c2.set_reg RACC res
  c3.update_sr v1 res

def ADD (c : CPU) : Option CPU := arithWR wadd c
def ADDR (c : CPU) : Option CPU := arithRR wadd c
def SUB (c : CPU) : Option CPU := arithWR wsub c
def SUBWR (c : CPU) : Option CPU := arithRW wsub c
def SUBR (c : CPU) : Option CPU := arithRR wsub c
def MULT (c : CPU) : Option CPU := arithWR wmul c
def MULTR (c : CPU) : Option CPU := arithRR wmul c

/-- `DIV w, r`: `acc ← w / [r]`; division by zero is fatal. -/
def DIV (c : CPU) : Option CPU := do
  let (w, c1) ← c.fetch_word
  let (r_addr, c2) ← c1.fetch_word
  let rv ← c2.get_reg r_addr
  if rv = 0 then none
  else do
    let res := w / rv
    let c3 ← c2.set_reg RACC res
    c3.update_sr w res

/-- `DIVWR r, w`: `acc ← [r] / w`; division by zero is fatal. -/
def DIVWR (c : CPU) : Option CPU := do
  let (r_addr, c1) ← c.fetch_word
  let rv ← c1.get_reg r_addr
  let (w, c2) ← c1.fetch_word
  if w = 0 then none
  else do
    let res := rv / w
    let c3 ← c2.set_reg RACC res
    c3.update_sr rv res

/-- `DIVR r1, r2`: `acc ← [r1] / [r2]`; division by zero is fatal. -/
def DIVR (c : CPU) : Option CPU := do
  let (r1_addr, c1) ← c.fetch_word
  let (r2_addr, c2) ← c1.fetch_word
  let v1 ← c2.get_reg r1_addr
  let v2 ← c2.get_reg r2_addr
  if v2 = 0 then none
  else do
    let res := v1 / v2
    let c3 ← c2.set_reg RACC res
    c3.update_sr v1 res

/-- `INC r`: `[r] ← [r] + 1` wrapping; `update_sr(pre, post)`. -/
def INC (c : CPU) : Option CPU := do
  let (r_addr, c1) ← c.fetch_word
  let rv ← c1.get_reg r_addr
  let res := wadd rv 1
  let c2 ← c1.set_reg r_addr res
  c2.update_sr rv res

/-- `DEC r`: `[r] ← [r] - 1` wrapping; `update_sr(pre, post)`. -/
def DEC (c : CPU) : Option CPU := do
  let (r_addr, c1) ← c.fetch_word
  let rv ← c1.get_reg r_addr
  let res := wsub rv 1
  let c2 ← c1.set_reg r_addr res
  c2.update_sr rv res

/-- `BRBS f, a`: branch to `a` if status flag `f` (an 8-bit operand) is
set. -/
def BRBS (c : CPU) : Option CPU := do
  let (f, c1) ← c.fetch_byte
  let (a, c2) ← c1.fetch_word
  if c2.get_status_flag f then c2.set_reg RPC a else pure c2

/-- `BRBC f, a`: branch to `a` if status flag `f` is clear. -/
def BRBC (c : CPU) : Option CPU := do
  let (f, c1) ← c.fetch_byte
  let (a, c2) ← c1.fetch_word
  if c2.get_status_flag f then pure c2 else c2.set_reg RPC a

/-- The `(W, A)` branch shape: compare the literal with `acc`. -/
def brWA (cmp : Nat → Nat → Bool) (c : CPU) : Option CPU := do
  let (w, c1) ← c.fetch_word
  let (a, c2) ← c1.fetch_word
  let acc ← c2.get_reg RACC
  if cmp w acc then c2.set_reg RPC a else pure c2

/-- The `(R, A)` branch shape: compare the register with `acc`. -/
def brRA (cmp : Nat → Nat → Bool) (c : CPU) : Option CPU := do
  let (r_addr, c1) ← c.fetch_word
  let (a, c2) ← c1.fetch_word
  let rv ← c2.get_reg r_addr
  let acc ← c2.get_reg RACC
  if cmp rv acc then c2.set_reg RPC a else pure c2

/-- The `(R, W, A)` branch shape: compare the register with the literal. -/
def brRWA (cmp : Nat → Nat → Bool) (c : CPU) : Option CPU := do
  let (r_addr, c1) ← c.fetch_word
  let (w, c2) ← c1.fetch_word
  let (a, c3) ← c2.fetch_word
  let rv ← c3.get_reg r_addr
  if cmp rv w then c3.set_reg RPC a else pure c3

/-- The `(R, R, A)` branch shape: compare the two registers. -/
def brRRA (cmp : Nat → Nat → Bool) (c : CPU) : Option CPU := do
  let (r1_addr, c1) ← c.fetch_word
  let (r2_addr, c2) ← c1.fetch_word
  let (a, c3) ← c2.fetch_word
  let v1 ← c3.get_reg r1_addr
  let v2 ← c3.get_reg r2_addr
  if cmp v1 v2 then c3.set_reg RPC a else pure c3

def BREQ (c : CPU) : Option CPU := brWA (fun x y => x = y) c
def BREQR (c : CPU) : Option CPU := brRA (fun x y => x = y) c
def BREQRW (c : CPU) : Option CPU := brRWA (fun x y => x = y) c
def BREQRR (c : CPU) : Option CPU := brRRA (fun x y => x = y) c
def BRNQ (c : CPU) : Option CPU := brWA (fun x y => x ≠ y) c
def BRNQR (c : CPU) : Option CPU := brRA (fun x y => x ≠ y) c
def BRNQRW (c : CPU) : Option CPU := brRWA (fun x y => x ≠ y) c
def BRNQRR (c : CPU) : Option CPU := brRRA (fun x y => x ≠ y) c
def BRLT (c : CPU) : Option CPU := brWA (fun x y => x < y) c
def BRLTR (c : CPU) : Option CPU := brRA (fun x y => x < y) c
def BRLTRW (c : CPU) : Option CPU := brRWA (fun x y => x < y) c
def BRLTRR (c : CPU) : Option CPU := brRRA (fun x y => x < y) c
def BRGT (c : CPU) : Option CPU := brWA (fun x y => x > y) c
def BRGTR (c : CPU) : Option CPU := brRA (fun x y => x > y) c
def BRGTRW (c : CPU) : Option CPU := brRWA (fun x y => x > y) c
def BRGTRR (c : CPU) : Option CPU := brRRA (fun x y => x > y) c
def BRLTE (c : CPU) : Option CPU := brWA (fun x y => x ≤ y) c
def BRLTER (c : CPU) : Option CPU := brRA (fun x y => x ≤ y) c
def BRLTERW (c : CPU) : Option CPU := brRWA (fun x y => x ≤ y) c
def BRLTERR (c : CPU) : Option CPU := brRRA (fun x y => x ≤ y) c
def BRGTE (c : CPU) : Option CPU := brWA (fun x y => x ≥ y) c
def BRGTER (c : CPU) : Option CPU := brRA (fun x y => x ≥ y) c
def BRGTERW (c : CPU) : Option CPU := brRWA (fun x y => x ≥ y) c
def BRGTERR (c : CPU) : Option CPU := brRRA (fun x y => x ≥ y) c

/-! ## Fetch/decode/execute loop

Embedded from the `generate_execute!` macro and the `execute`, `step`,
`run` and `run_debug` functions of `cpu_struct.rs`.  `0xFF` sets
`halt_signal` and `0x00` is a no-op directly in the macro; every other
known opcode dispatches to its handler; an unknown opcode is a fatal
fault. -/

def CPU.execute (c : CPU) (instr : Nat) : Option CPU :=
  match instr with
  | 0xFF => some { c with halt_signal := true }
  | 0x00 => some c
  | 0x10 => MOVR c
  | 0x11 => MOVM c
  | 0x12 => MOVRR c
  | 0x13 => MOVRM c
  | 0x14 => MOVMR c
  | 0x17 => MOVRPR c
  | 0x18 => MOVROR c
  | 0x05 => POP c
  | 0x15 => PUSH c
  | 0x16 => PUSHR c
  | 0x19 => LOAD c
  | 0x1A => LOADR c
  | 0x1B => LOADM c
  | 0x1C => STORE c
  | 0x1D => STORER c
  | 0x1E => STOREM c
  | 0x01 => JMP c
  | 0x02 => CALL c
  | 0x03 => CALLR c
  | 0x04 => RET c
  | 0x20 => ADD c
  | 0x21 => ADDR c
  | 0x22 => SUB c
  | 0x23 => SUBWR c
  | 0x24 => SUBR c
  | 0x25 => MULT c
  | 0x26 => MULTR c
  | 0x27 => DIV c
  | 0x28 => DIVWR c
  | 0x29 => DIVR c
  | 0x2A => INC c
  | 0x2B => DEC c
  | 0x50 => LSF c
  | 0x51 => LSFR c
  | 0x52 => RSF c
  | 0x53 => RSFR c
  | 0x54 => WLSF c
  | 0x55 => WLSFR c
  | 0x56 => WRSF c
  | 0x57 => WRSFR c
  | 0x58 => AND c
  | 0x59 => ANDR c
  | 0x5A => OR c
  | 0x5B => ORR c
  | 0x5C => XOR c
  | 0x5D => XORR c
  | 0x5E => NOT c
  | 0x30 => BRBS c
  | 0x31 => BRBC c
  | 0x32 => BREQ c
  | 0x33 => BREQR c
  | 0x34 => BREQRW c
  | 0x35 => BREQRR c
  | 0x36 => BRNQ c
  | 0x37 => BRNQR c
  | 0x38 => BRNQRW c
  | 0x39 => BRNQRR c
  | 0x3A => BRLT c
  | 0x3B => BRLTR c
  | 0x3C => BRLTRW c
  | 0x3D => BRLTRR c
  | 0x3E => BRGT c
  | 0x3F => BRGTR c
  | 0x40 => BRGTRW c
  | 0x41 => BRGTRR c
  | 0x42 => BRLTE c
  | 0x43 => BRLTER c
  | 0x44 => BRLTERW c
  | 0x45 => BRLTERR c
  | 0x46 => BRGTE c
  | 0x47 => BRGTER c
  | 0x48 => BRGTERW c
  | 0x49 => BRGTERR c
  | _ => none

/-- `CPU::step`: fetch one opcode byte, execute it. -/
def CPU.step (c : CPU) : Option CPU :=
  match c.fetch_byte with
  | none => none
  | some (instr, c1) => c1.execute instr

/-- The result of running the VM with a given amount of fuel:
`halted` when the loop observed `halt_signal`, `fault` on a fatal
fault, `timeout` when the fuel ran out first (the source loop simply
keeps going; fuel makes the embedding total). -/
inductive RunResult
  | halted (c : CPU)
  | fault
  | timeout

/-- The `while !self.halt_signal { self.step(); }` loop of `run`. -/
def CPU.runLoop : Nat → CPU → RunResult
  | 0, c => if c.halt_signal then .halted c else .timeout
  | fuel + 1, c =>
    if c.halt_signal then .halted c
    else
      match c.step with
      | none => .fault
      | some c2 => CPU.runLoop fuel c2

/-- `CPU::run`: fatal fault if the stack was never set, else loop
`step()` until `halt_signal`. -/
def CPU.run (fuel : Nat) (c : CPU) : RunResult :=
  if !c.stack_set then .fault else CPU.runLoop fuel c

/-- `CPU::run_debug`: performs the identical stack-set check, then
loops until `halt_signal`, stepping once per non-hex operator input
line.  The ANSI rendering and the stdin reads have no effect on the
CPU state, and an input line that is a hex number only moves the debug
memory window, so the CPU-state evolution is the same `step` loop;
the rendering and input are not modelled. -/
def CPU.run_debug (fuel : Nat) (c : CPU) : RunResult :=
  if !c.stack_set then .fault else CPU.runLoop fuel c

/-! ## Theorems -/

/-- A region's half-open address range `[start, stop)` contains `addr`. -/
def regionContains {δ : Type} (r : Region δ) (addr : Nat) : Prop :=
  r.start ≤ addr ∧ addr < r.stop

instance {δ : Type} (r : Region δ) (addr : Nat) :
    Decidable (regionContains r addr) := by
  unfold regionContains; infer_instance

theorem findRegionAux_none {δ : Type} (addr : Nat) (l : List (Region δ)) :
    ∀ k, findRegionAux addr l k = none ↔
      ∀ r ∈ l, ¬regionContains r addr := by
  induction l with
  | nil => intro k; simp [findRegionAux]
  | cons r rs ih =>
    intro k
    unfold findRegionAux
    by_cases h : r.start ≤ addr ∧ addr < r.stop
    · rw [if_pos h]
      constructor
      · intro hc; exact absurd hc (by simp)
      · intro hall; exact absurd h (hall r (by simp))
    · rw [if_neg h, ih (k + 1)]
      constructor
      · intro hall r2 hr2
        rcases List.mem_cons.mp hr2 with rfl | hmem
        · exact fun hc => h ⟨hc.1, hc.2⟩
        · exact hall r2 hmem
      · intro hall r2 hmem
        exact hall r2 (List.mem_cons_of_mem _ hmem)

theorem findRegionAux_some {δ : Type} (addr : Nat) (l : List (Region δ)) :
    ∀ k i, findRegionAux addr l k = some i →
      k ≤ i ∧ ∃ r, l[i - k]? = some r ∧ regionContains r addr ∧
        ∀ j rj, j < i - k → l[j]? = some rj → ¬regionContains rj addr := by
  induction l with
  | nil => intro k i h; simp [findRegionAux] at h
  | cons r rs ih =>
    intro k i h
    by_cases hc : r.start ≤ addr ∧ addr < r.stop
    · simp only [findRegionAux, if_pos hc, Option.some.injEq] at h
      subst h
      refine ⟨le_refl _, r, ?_, hc, ?_⟩
      · simp
      · intro j rj hj _
        omega
    · simp only [findRegionAux, if_neg hc] at h
      obtain ⟨hk, rr, hget, hcont, hfirst⟩ := ih (k + 1) i h
      refine ⟨by omega, rr, ?_, hcont, ?_⟩
      · have heq : i - k = (i - (k + 1)) + 1 := by omega
        rw [heq]
        simpa using hget
      · intro j rj hj hgj
        match j with
        | 0 =>
          simp only [List.getElem?_cons_zero, Option.some.injEq] at hgj
          subst hgj
          exact fun hcr => hc ⟨hcr.1, hcr.2⟩
        | j2 + 1 =>
          simp only [List.getElem?_cons_succ] at hgj
          exact hfirst j2 rj (by omega) hgj

/-- C4: `map(device, start, end, remap)` inserts the region at the front
of the region list; each of `get_byte`, `get_word`, `set_byte`,
`set_word` at address `a` dispatches to the first region from the front
whose `[start, end)` contains `a`, passing the device `a - start` when
that region's remap flag is set and `a` otherwise; after `map(d1, s, e,
_)` then `map(d2, s, e, _)`, every access at `a ∈ [s, e)` reaches `d2`;
and an access matching no region is a fatal fault. -/
theorem claim_C4 {δ : Type} (ops : DeviceOps δ) (m : MemoryMapper δ)
    (d d1 d2 : δ) (s e a v : Nat) (rm rm1 rm2 : Bool) :
    ((MemoryMapper.map m d s e rm).regions =
       { device := d, start := s, stop := e, remap := rm } :: m.regions) ∧
    (∀ i r, m.find_region a = some i → m.regions[i]? = some r →
       regionContains r a ∧
       (∀ j rj, j < i → m.regions[j]? = some rj → ¬regionContains rj a) ∧
       MemoryMapper.get_byte ops m a =
         some (ops.dev_get_byte r.device (if r.remap then a - r.start else a)) ∧
       MemoryMapper.get_word ops m a =
         some (ops.dev_get_word r.device (if r.remap then a - r.start else a)) ∧
       MemoryMapper.set_byte ops m a v =
         some ⟨m.regions.set i
           { r with device :=
               ops.dev_set_byte r.device (if r.remap then a - r.start else a) v }⟩ ∧
       MemoryMapper.set_word ops m a v =
         some ⟨m.regions.set i
           { r with device :=
               ops.dev_set_word r.device (if r.remap then a - r.start else a) v }⟩) ∧
    ((∀ r ∈ m.regions, ¬regionContains r a) →
       m.find_region a = none ∧
       MemoryMapper.get_byte ops m a = none ∧
       MemoryMapper.get_word ops m a = none ∧
       MemoryMapper.set_byte ops m a v = none ∧
       MemoryMapper.set_word ops m a v = none) ∧
    (s ≤ a → a < e →
       MemoryMapper.get_byte ops ((m.map d1 s e rm1).map d2 s e rm2) a =
         some (ops.dev_get_byte d2 (if rm2 then a - s else a)) ∧
       MemoryMapper.get_word ops ((m.map d1 s e rm1).map d2 s e rm2) a =
         some (ops.dev_get_word d2 (if rm2 then a - s else a))) := by
  refine ⟨rfl, ?_, ?_, ?_⟩
  · intro i r hfind hget
    obtain ⟨-, rr, hget', hcont, hfirst⟩ :=
      findRegionAux_some a m.regions 0 i hfind
    simp only [Nat.sub_zero] at hget' hfirst
    rw [hget] at hget'
    injection hget' with hrr
    subst hrr
    refine ⟨hcont, fun j rj hj hgj => hfirst j rj hj hgj, ?_, ?_, ?_, ?_⟩ <;>
      simp [MemoryMapper.get_byte, MemoryMapper.get_word,
        MemoryMapper.set_byte, MemoryMapper.set_word,
        MemoryMapper.get_region_and_addr, hfind, hget]
  · intro hnone
    have h : m.find_region a = none := by
      rw [MemoryMapper.find_region, findRegionAux_none]
      exact hnone
    refine ⟨h, ?_, ?_, ?_, ?_⟩ <;>
      simp [MemoryMapper.get_byte, MemoryMapper.get_word,
        MemoryMapper.set_byte, MemoryMapper.set_word,
        MemoryMapper.get_region_and_addr, h]
  · intro h1 h2
    have hfind : MemoryMapper.find_region
        ⟨{ device := d2, start := s, stop := e, remap := rm2 } ::
          { device := d1, start := s, stop := e, remap := rm1 } :: m.regions⟩ a =
        some 0 := by
      simp [MemoryMapper.find_region, findRegionAux, h1, h2]
    constructor <;>
      simp [MemoryMapper.get_byte, MemoryMapper.get_word,
        MemoryMapper.get_region_and_addr, MemoryMapper.map, hfind]

/-- A concrete device-operation record over `Nat` device identifiers,
used by the witnesses: a read returns `id * 100000 + local_address`. -/
def natDevOps : DeviceOps Nat :=
  { dev_get_byte := fun d a => d * 100000 + a
    dev_get_word := fun d a => d * 100000 + a
    dev_set_byte := fun d _ _ => d
    dev_set_word := fun d _ _ => d }

/-- Witness for C4: shadowing at a concrete input.  Mapping device 1
then device 2 over `[0x40, 0x48)` and reading byte `0x44` reaches
device 2 with the remapped local address 4. -/
theorem claim_C4_witness :
    MemoryMapper.get_byte natDevOps
        ((MemoryMapper.map ⟨[]⟩ 1 0x40 0x48 false).map 2 0x40 0x48 true) 0x44 =
      some (natDevOps.dev_get_byte 2 (if true then 0x44 - 0x40 else 0x44)) :=
  ((claim_C4 natDevOps ⟨[]⟩ 0 1 2 0x40 0x48 0x44 0 false false true).2.2.2
    (by decide) (by decide)).1

theorem get_reg_some (c : CPU) (a : Nat) (h : a + 3 < c.registers.size) :
    c.get_reg a = some (beGet c.registers.data a) := by
  simp [CPU.get_reg, Memory.get_word, h]

theorem set_reg_some (c : CPU) (a v : Nat) (h : a + 3 < c.registers.size) :
    c.set_reg a v =
      some { c with registers := ⟨c.registers.size, beSet c.registers.data a v⟩ } := by
  simp [CPU.set_reg, Memory.set_word, h]

/-- Characterization of `CPU::push` on a well-formed register file:
fault exactly when `sp - 4 < stack_start - stack_size` (wrapping),
otherwise the word is written at `sp`, `sp` drops by 4 and
`stackframe_size` grows by 4. -/
theorem push_eq (c : CPU) (v : Nat) (hsize : c.registers.size = 52) :
    c.push v =
      if wsub (beGet c.registers.data RSP) 4 < wsub c.stack_start c.stack_size
      then none
      else some { c with
        mem := beSet c.mem (beGet c.registers.data RSP) v
        registers := ⟨52, beSet c.registers.data RSP
          (wsub (beGet c.registers.data RSP) 4)⟩
        stackframe_size := wadd c.stackframe_size 4 } := by
  unfold CPU.push
  rw [get_reg_some c RSP (by rw [hsize]; unfold RSP; omega)]
  by_cases hcond :
      wsub (beGet c.registers.data RSP) 4 < wsub c.stack_start c.stack_size
  · simp [hcond]
  · simp only [Option.bind_eq_bind, Option.some_bind, if_neg hcond]
    rw [set_reg_some _ RSP _ (by simp [hsize]; unfold RSP; omega)]
    simp [hsize]

/-- Characterization of `CPU::pop` on a well-formed register file:
fault exactly when `sp + 4 > stack_start - 3` (wrapping), otherwise
`sp` rises by 4, `stackframe_size` drops by 4 and the word at the new
`sp` is returned. -/
theorem pop_eq (c : CPU) (hsize : c.registers.size = 52) :
    c.pop =
      if wrap (beGet c.registers.data RSP + 4) > wsub c.stack_start 3
      then none
      else some (beGet c.mem (wrap (beGet c.registers.data RSP + 4)),
        { c with
          registers := ⟨52, beSet c.registers.data RSP
            (wrap (beGet c.registers.data RSP + 4))⟩
          stackframe_size := wsub c.stackframe_size 4 }) := by
  unfold CPU.pop
  rw [get_reg_some c RSP (by rw [hsize]; unfold RSP; omega)]
  by_cases hcond : wrap (beGet c.registers.data RSP + 4) > wsub c.stack_start 3
  · simp [hcond]
  · simp only [Option.bind_eq_bind, Option.some_bind, if_neg hcond]
    rw [set_reg_some _ RSP _ (by simp [hsize]; unfold RSP; omega)]
    simp [hsize]

/-- C5: for every CPU state (with a well-formed 52-byte register file)
and every word `v`, `push(v)` raises a fatal stack-overflow fault if
and only if `sp - 4 < stack_start - stack_size` (unsigned wrapping);
otherwise it writes the word `v` at address `sp` via the mapper, sets
`sp` to `sp - 4`, and increases `stackframe_size` by 4. -/
theorem claim_C5 (c : CPU) (v : Nat) (hsize : c.registers.size = 52)
    (hstack : c.stack_set = true) :
    (c.push v = none ↔
      wsub (beGet c.registers.data RSP) 4 < wsub c.stack_start c.stack_size) ∧
    (¬ wsub (beGet c.registers.data RSP) 4 < wsub c.stack_start c.stack_size →
      c.push v = some { c with
        mem := beSet c.mem (beGet c.registers.data RSP) v
        registers := ⟨52, beSet c.registers.data RSP
          (wsub (beGet c.registers.data RSP) 4)⟩
        stackframe_size := wadd c.stackframe_size 4 }) := by
  rw [push_eq c v hsize]
  by_cases hcond :
      wsub (beGet c.registers.data RSP) 4 < wsub c.stack_start c.stack_size
  · simp [hcond]
  · simp [hcond]

/-- A concrete CPU state used by several witnesses: zero memory,
program counter 0, stack at `[0xF000, 0x10000)`.  `set_stack` always
succeeds on a fresh CPU; `zeroCPU` is the unwrapped result. -/
def zeroCPU : CPU :=
  { mem := fun _ => 0
    registers := ⟨52, beSet (beSet (beSet (fun _ => 0) RPC 0) RSP 0xFFFC) RFP 0xFFFC⟩
    stackframe_size := 0
    halt_signal := false
    stack_start := 0x10000
    stack_size := 0x1000
    stack_set := true }

theorem zeroCPU_eq : (CPU.new (fun _ => 0) 0).set_stack 0x10000 0x1000 =
    some zeroCPU := by
  rw [CPU.set_stack]
  rw [set_reg_some _ RSP _ (by unfold CPU.new; simp; unfold RSP; omega)]
  simp only [Option.bind_eq_bind, Option.some_bind]
  rw [set_reg_some _ RFP _ (by unfold CPU.new; simp; unfold RFP; omega)]
  simp only [Option.bind_eq_bind, Option.some_bind]
  rfl

/-- Witness for C5: pushing `0xDEADBEEF` on the fresh stack of
`zeroCPU` does not fault and decrements `sp` from `0xFFFC` to
`0xFFF8`. -/
theorem claim_C5_witness :
    (zeroCPU.push 0xDEADBEEF = none ↔
      wsub (beGet zeroCPU.registers.data RSP) 4 <
        wsub zeroCPU.stack_start zeroCPU.stack_size) ∧
    (¬ wsub (beGet zeroCPU.registers.data RSP) 4 <
        wsub zeroCPU.stack_start zeroCPU.stack_size →
      zeroCPU.push 0xDEADBEEF = some { zeroCPU with
        mem := beSet zeroCPU.mem (beGet zeroCPU.registers.data RSP) 0xDEADBEEF
        registers := ⟨52, beSet zeroCPU.registers.data RSP
          (wsub (beGet zeroCPU.registers.data RSP) 4)⟩
        stackframe_size := wadd zeroCPU.stackframe_size 4 }) :=
  claim_C5 zeroCPU 0xDEADBEEF rfl rfl

theorem get_status_flag_testBit (c : CPU) (n : Nat) :
    c.get_status_flag n = (beGet c.registers.data RSR).testBit (n % 32) := by
  unfold CPU.get_status_flag
  rw [Nat.shiftLeft_eq, one_mul, Nat.and_two_pow]
  cases htb : (beGet c.registers.data RSR).testBit (n % 32) <;> simp [htb]

/-- C10: for every flag index `n` given as a byte, `get_status_flag(n)`
never faults (the read of `sr` is at the fixed in-bounds offset and the
function is total) and returns bit `n mod 32` of the `sr` register
word; in particular for `n ≥ 32` the index wraps around rather than
being rejected, so flag indices 32..255 alias flags 0..31. -/
theorem claim_C10 (c : CPU) (n : Nat) (hn : n < 256)
    (hsize : c.registers.size = 52) :
    c.get_reg RSR = some (beGet c.registers.data RSR) ∧
    c.get_status_flag n = (beGet c.registers.data RSR).testBit (n % 32) ∧
    c.get_status_flag n = c.get_status_flag (n % 32) := by
  refine ⟨get_reg_some c RSR (by rw [hsize]; unfold RSR; omega),
    get_status_flag_testBit c n, ?_⟩
  rw [get_status_flag_testBit, get_status_flag_testBit, Nat.mod_mod_of_dvd _ (by omega)]

/-- Witness for C10: flag index 34 aliases flag 2 on the concrete state
`zeroCPU`. -/
theorem claim_C10_witness :
    zeroCPU.get_reg RSR = some (beGet zeroCPU.registers.data RSR) ∧
    zeroCPU.get_status_flag 34 =
      (beGet zeroCPU.registers.data RSR).testBit (34 % 32) ∧
    zeroCPU.get_status_flag 34 = zeroCPU.get_status_flag (34 % 32) :=
  claim_C10 zeroCPU 34 (by decide) rfl

theorem setB_setB_same (m : Nat → Nat) (a v w : Nat) :
    setB (setB m a v) a w = setB m a w := by
  funext x
  by_cases h : x = a <;> simp [setB, h]

theorem or_set_byte_eq (m : Memory) (a mask : Nat) (h : a < m.size) :
    m.or_set_byte a mask =
      some ⟨m.size, setB m.data a (byteAt m.data a ||| mask % 256)⟩ := by
  simp [Memory.or_set_byte, h]

theorem and_set_byte_eq (m : Memory) (a mask : Nat) (h : a < m.size) :
    m.and_set_byte a mask =
      some ⟨m.size, setB m.data a (byteAt m.data a &&& mask % 256)⟩ := by
  simp [Memory.and_set_byte, h]

/-- The net effect of `update_sr` on the single byte it rewrites (the
byte at the `sr` register's base offset): bit 0 forced to `post == 0`,
bit 1 forced to `pre > post`, bits 2..7 untouched. -/
def srByte (b pre post : Nat) : Nat :=
  if pre > post then (if post = 0 then b ||| 1 else b &&& 254) ||| 2
  else (if post = 0 then b ||| 1 else b &&& 254) &&& 253

theorem maskBits (j : Nat) (hj : j < 8) :
    Nat.testBit 1 j = decide (j = 0) ∧ Nat.testBit 2 j = decide (j = 1) ∧
    Nat.testBit 254 j = decide (j ≠ 0) ∧ Nat.testBit 253 j = decide (j ≠ 1) := by
  interval_cases j <;> refine ⟨by decide, by decide, by decide, by decide⟩

theorem srByte_lt (b pre post : Nat) (hb : b < 256) :
    srByte b pre post < 256 := by
  have h8 : (256 : Nat) = 2 ^ 8 := by norm_num
  have hor : b ||| 1 < 2 ^ 8 := Nat.or_lt_two_pow (h8 ▸ hb) (by norm_num)
  have hand : b &&& 254 < 2 ^ 8 := lt_of_le_of_lt Nat.and_le_left (h8 ▸ hb)
  unfold srByte
  by_cases h2 : pre > post
  · rw [if_pos h2]
    by_cases h1 : post = 0
    · rw [if_pos h1, h8]; exact Nat.or_lt_two_pow hor (by norm_num)
    · rw [if_neg h1, h8]; exact Nat.or_lt_two_pow hand (by norm_num)
  · rw [if_neg h2]
    by_cases h1 : post = 0
    · rw [if_pos h1, h8]; exact lt_of_le_of_lt Nat.and_le_left hor
    · rw [if_neg h1, h8]; exact lt_of_le_of_lt Nat.and_le_left hand

theorem srByte_testBit_zero (b pre post : Nat) :
    (srByte b pre post).testBit 0 = decide (post = 0) := by
  unfold srByte
  split <;> split <;>
    simp [Nat.testBit_lor, Nat.testBit_land, *,
      (by decide : Nat.testBit 1 0 = true), (by decide : Nat.testBit 2 0 = false),
      (by decide : Nat.testBit 254 0 = false), (by decide : Nat.testBit 253 0 = true)]

theorem srByte_testBit_one (b pre post : Nat) :
    (srByte b pre post).testBit 1 = decide (pre > post) := by
  unfold srByte
  split <;> split <;>
    simp [Nat.testBit_lor, Nat.testBit_land, *,
      (by decide : Nat.testBit 2 1 = true), (by decide : Nat.testBit 1 1 = false),
      (by decide : Nat.testBit 254 1 = true),
      (by decide : Nat.testBit 253 1 = false)] <;>
    omega

theorem srByte_testBit_ge_two (b pre post j : Nat) (hb : b < 256)
    (hj : 2 ≤ j) : (srByte b pre post).testBit j = b.testBit j := by
  rcases Nat.lt_or_ge j 8 with hj8 | hj8
  · obtain ⟨t1, t2, t254, t253⟩ := maskBits j hj8
    have d0 : decide (j = 0) = false := decide_eq_false (by omega)
    have d1 : decide (j = 1) = false := decide_eq_false (by omega)
    have e0 : decide (j ≠ 0) = true := decide_eq_true (by omega)
    have e1 : decide (j ≠ 1) = true := decide_eq_true (by omega)
    unfold srByte
    split <;> split <;>
      simp [Nat.testBit_lor, Nat.testBit_land, t1, t2, t254, t253, d0, d1, e0, e1]
  · have hsb := srByte_lt b pre post hb
    have h2j : (256 : Nat) ≤ 2 ^ j :=
      le_trans (by norm_num : (256 : Nat) ≤ 2 ^ 8)
        (Nat.pow_le_pow_right (by omega) hj8)
    rw [Nat.testBit_lt_two_pow (by omega), Nat.testBit_lt_two_pow (by omega)]

/-- Characterization of `CPU::update_sr`: the register file is updated
at the single byte `RSR` (the base offset of `sr`), whose new value is
`srByte` of the old one; everything else is unchanged. -/
theorem update_sr_eq (c : CPU) (pre post : Nat)
    (hsize : c.registers.size = 52) :
    c.update_sr pre post = some { c with registers :=
      ⟨52, setB c.registers.data RSR
        (srByte (byteAt c.registers.data RSR) pre post)⟩ } := by
  have h40 : RSR < c.registers.size := by rw [hsize]; unfold RSR; omega
  have e40 : (RSR < c.registers.size) = True := eq_true h40
  have hb := byteAt_lt c.registers.data RSR
  have h28 : (256 : Nat) = 2 ^ 8 := by norm_num
  have hor : (byteAt c.registers.data RSR ||| 1) % 256 =
      byteAt c.registers.data RSR ||| 1 :=
    Nat.mod_eq_of_lt (by rw [h28]; exact Nat.or_lt_two_pow (h28 ▸ hb) (by norm_num))
  have hand : (byteAt c.registers.data RSR &&& 254) % 256 =
      byteAt c.registers.data RSR &&& 254 :=
    Nat.mod_eq_of_lt (lt_of_le_of_lt Nat.and_le_left hb)
  unfold CPU.update_sr srByte
  by_cases h1 : post = 0 <;> by_cases h2 : pre > post
  · have e1 : (post = 0) = True := eq_true h1
    have e2 : (pre > post) = True := eq_true h2
    simp only [e1, e2, ite_true, ite_false, Memory.or_set_byte,
      Memory.and_set_byte, e40,
      Option.bind_eq_bind, Option.some_bind, Option.pure_def, Option.some.injEq]
    rw [byteAt_setB_same, setB_setB_same]
    simp only [Nat.reduceMod, hor, hsize]
  · have e1 : (post = 0) = True := eq_true h1
    have e2 : (pre > post) = False := eq_false h2
    simp only [e1, e2, ite_true, ite_false, Memory.or_set_byte,
      Memory.and_set_byte, e40,
      Option.bind_eq_bind, Option.some_bind, Option.pure_def, Option.some.injEq]
    rw [byteAt_setB_same, setB_setB_same]
    simp only [Nat.reduceMod, hor, hsize]
  · have e1 : (post = 0) = False := eq_false h1
    have e2 : (pre > post) = True := eq_true h2
    simp only [e1, e2, ite_true, ite_false, Memory.or_set_byte,
      Memory.and_set_byte, e40,
      Option.bind_eq_bind, Option.some_bind, Option.pure_def, Option.some.injEq]
    rw [byteAt_setB_same, setB_setB_same]
    simp only [Nat.reduceMod, hand, hsize]
  · have e1 : (post = 0) = False := eq_false h1
    have e2 : (pre > post) = False := eq_false h2
    simp only [e1, e2, ite_true, ite_false, Memory.or_set_byte,
      Memory.and_set_byte, e40,
      Option.bind_eq_bind, Option.some_bind, Option.pure_def, Option.some.injEq]
    rw [byteAt_setB_same, setB_setB_same]
    simp only [Nat.reduceMod, hand, hsize]

/-- C2 (code-bug evaluation): the claim says that after
`update_sr(pre, post)` bit 0 of the `sr` register equals 1 iff
`post == 0`.  At the failing input `pre = 0, post = 0` the code instead
sets bit 0 of the BYTE at the register's base offset, which under the
spec's big-endian word encoding is bit 24 of the `sr` word: the `sr`
word becomes `0x01000000`, its bit 0 stays 0, and
`get_status_flag(0)` — which reads word bit 0 and is what the BRBS/BRBC
branch instructions consult — still returns false even though the
result was zero. -/
theorem claim_C2 :
    (zeroCPU.update_sr 0 0).map
        (fun c2 => (c2.get_reg RSR, c2.get_status_flag 0, c2.get_status_flag 1)) =
      some (some 16777216, false, false) ∧
    Nat.testBit 16777216 0 = false ∧ Nat.testBit 16777216 24 = true := by
  refine ⟨by rfl, by decide, by decide⟩

/-- Counterexample to C9: the claim says `update_sr` modifies only bits
0 and 1 of `sr` and that bits 2..31 keep their previous values; but on
a state with `sr = 0`, `update_sr(0, 0)` flips bit 24 of the `sr` word
from 0 to 1. -/
theorem claim_C9_counterexample :
    (zeroCPU.update_sr 0 0).map (fun c2 => c2.get_reg RSR) =
      some (some 16777216) ∧
    zeroCPU.get_reg RSR = some 0 ∧
    Nat.testBit 0 24 = false ∧ Nat.testBit 16777216 24 = true := by
  refine ⟨by rfl, by rfl, by decide, by decide⟩

/-- C9 (amended): `update_sr(pre, post)` modifies only bits 24 and 25
of the `sr` register word (that is, bits 0 and 1 of the byte at the
`sr` base offset): bit 24 becomes `post == 0`, bit 25 becomes
`pre > post`, every other bit of `sr` keeps its previous value, every
other register byte keeps its value, and all remaining CPU fields are
unchanged. -/
theorem claim_C9 (c : CPU) (pre post : Nat) (hsize : c.registers.size = 52) :
    ∃ c2, c.update_sr pre post = some c2 ∧
      c2.mem = c.mem ∧
      c2.stackframe_size = c.stackframe_size ∧
      c2.halt_signal = c.halt_signal ∧
      c2.stack_start = c.stack_start ∧
      c2.stack_size = c.stack_size ∧
      c2.stack_set = c.stack_set ∧
      c2.registers.size = 52 ∧
      (∀ x, x ≠ RSR → c2.registers.data x = c.registers.data x) ∧
      (∀ i, i < 32 → i ≠ 24 → i ≠ 25 →
        (beGet c2.registers.data RSR).testBit i =
          (beGet c.registers.data RSR).testBit i) ∧
      (beGet c2.registers.data RSR).testBit 24 = decide (post = 0) ∧
      (beGet c2.registers.data RSR).testBit 25 = decide (pre > post) := by
  have hb : byteAt c.registers.data RSR < 256 := byteAt_lt _ _
  have hsb : srByte (byteAt c.registers.data RSR) pre post < 256 :=
    srByte_lt _ _ _ hb
  have h24 : (2 : Nat) ^ 24 = 16777216 := by norm_num
  have hL1 := byteAt_lt c.registers.data (RSR + 1)
  have hL2 := byteAt_lt c.registers.data (RSR + 2)
  have hL3 := byteAt_lt c.registers.data (RSR + 3)
  have hLlt : byteAt c.registers.data (RSR + 1) * 65536 +
      byteAt c.registers.data (RSR + 2) * 256 +
      byteAt c.registers.data (RSR + 3) < 2 ^ 24 := by
    rw [h24]; omega
  have hget1 : beGet (setB c.registers.data RSR
        (srByte (byteAt c.registers.data RSR) pre post)) RSR =
      2 ^ 24 * srByte (byteAt c.registers.data RSR) pre post +
        (byteAt c.registers.data (RSR + 1) * 65536 +
          byteAt c.registers.data (RSR + 2) * 256 +
          byteAt c.registers.data (RSR + 3)) := by
    unfold beGet
    rw [byteAt_setB_same, byteAt_setB_ne _ _ _ _ (by omega),
      byteAt_setB_ne _ _ _ _ (by omega), byteAt_setB_ne _ _ _ _ (by omega),
      Nat.mod_eq_of_lt hsb, h24]
    omega
  have hget0 : beGet c.registers.data RSR =
      2 ^ 24 * byteAt c.registers.data RSR +
        (byteAt c.registers.data (RSR + 1) * 65536 +
          byteAt c.registers.data (RSR + 2) * 256 +
          byteAt c.registers.data (RSR + 3)) := by
    unfold beGet
    rw [h24]
    omega
  refine ⟨_, update_sr_eq c pre post hsize, rfl, rfl, rfl, rfl, rfl, rfl, rfl,
    ?_, ?_, ?_, ?_⟩
  · intro x hx
    simp only [setB, if_neg hx]
  · intro i hi h24i h25i
    simp only
    rw [hget1, hget0, Nat.testBit_mul_pow_two_add _ hLlt,
      Nat.testBit_mul_pow_two_add _ hLlt]
    by_cases hc : i < 24
    · rw [if_pos hc, if_pos hc]
    · rw [if_neg hc, if_neg hc]
      exact srByte_testBit_ge_two _ _ _ _ hb (by omega)
  · simp only
    rw [hget1, Nat.testBit_mul_pow_two_add _ hLlt, if_neg (by omega)]
    simpa using srByte_testBit_zero (byteAt c.registers.data RSR) pre post
  · simp only
    rw [hget1, Nat.testBit_mul_pow_two_add _ hLlt, if_neg (by omega)]
    simpa using srByte_testBit_one (byteAt c.registers.data RSR) pre post

/-- Witness for the amended C9 at the concrete input `pre = 5, post =
3` on `zeroCPU`. -/
theorem claim_C9_witness :
    ∃ c2, zeroCPU.update_sr 5 3 = some c2 ∧
      c2.mem = zeroCPU.mem ∧
      c2.stackframe_size = zeroCPU.stackframe_size ∧
      c2.halt_signal = zeroCPU.halt_signal ∧
      c2.stack_start = zeroCPU.stack_start ∧
      c2.stack_size = zeroCPU.stack_size ∧
      c2.stack_set = zeroCPU.stack_set ∧
      c2.registers.size = 52 ∧
      (∀ x, x ≠ RSR → c2.registers.data x = zeroCPU.registers.data x) ∧
      (∀ i, i < 32 → i ≠ 24 → i ≠ 25 →
        (beGet c2.registers.data RSR).testBit i =
          (beGet zeroCPU.registers.data RSR).testBit i) ∧
      (beGet c2.registers.data RSR).testBit 24 = decide ((3 : Nat) = 0) ∧
      (beGet c2.registers.data RSR).testBit 25 = decide ((5 : Nat) > 3) :=
  claim_C9 zeroCPU 5 3 rfl

theorem popcount_step (n : Nat) : popcount n = n % 2 + popcount (n / 2) := by
  by_cases h : n = 0
  · subst h; simp [popcount]
  · rw [popcount, if_neg h]

theorem popcount_mul_pow_add (k : Nat) :
    ∀ a b, b < 2 ^ k → popcount (a * 2 ^ k + b) = popcount a + popcount b := by
  induction k with
  | zero =>
    intro a b hb
    interval_cases b
    have h0 : popcount 0 = 0 := by rw [popcount]; rfl
    simp [h0]
  | succ k ih =>
    intro a b hb
    have hb2 : b / 2 < 2 ^ k := by
      have hpow : 2 ^ (k + 1) = 2 * 2 ^ k := by ring
      omega
    have heq : a * 2 ^ (k + 1) + b = 2 * (a * 2 ^ k) + b := by ring
    rw [popcount_step (a * 2 ^ (k + 1) + b), heq, Nat.mul_add_mod,
      Nat.mul_add_div (by omega), ih a (b / 2) hb2, popcount_step b]
    omega

theorem popcount_rotl32 (x n : Nat) (hx : x < W32) :
    popcount (rotl32 x n) = popcount x := by
  unfold rotl32
  have hs : n % 32 ≤ 32 := by omega
  have hW : W32 = 2 ^ (32 - n % 32) * 2 ^ (n % 32) := by
    rw [← pow_add]
    have : 32 - n % 32 + n % 32 = 32 := by omega
    rw [this]
    unfold W32
    norm_num
  have hdivlt : x / 2 ^ (32 - n % 32) < 2 ^ (n % 32) :=
    Nat.div_lt_of_lt_mul (by rw [← hW]; exact hx)
  have h1 : popcount x =
      popcount (x / 2 ^ (32 - n % 32)) + popcount (x % 2 ^ (32 - n % 32)) := by
    conv_lhs => rw [← Nat.div_add_mod x (2 ^ (32 - n % 32))]
    rw [mul_comm (2 ^ (32 - n % 32))]
    rw [popcount_mul_pow_add (32 - n % 32) _ _ (Nat.mod_lt _ (Nat.two_pow_pos _))]
  rw [popcount_mul_pow_add (n % 32) _ _ hdivlt]
  omega

theorem popcount_rotr32 (x n : Nat) (hx : x < W32) :
    popcount (rotr32 x n) = popcount x := by
  unfold rotr32
  have hW : W32 = 2 ^ (n % 32) * 2 ^ (32 - n % 32) := by
    rw [← pow_add]
    have : n % 32 + (32 - n % 32) = 32 := by omega
    rw [this]
    unfold W32
    norm_num
  have hdivlt : x / 2 ^ (n % 32) < 2 ^ (32 - n % 32) :=
    Nat.div_lt_of_lt_mul (by rw [← hW]; exact hx)
  have h1 : popcount x =
      popcount (x / 2 ^ (n % 32)) + popcount (x % 2 ^ (n % 32)) := by
    conv_lhs => rw [← Nat.div_add_mod x (2 ^ (n % 32))]
    rw [mul_comm (2 ^ (n % 32))]
    rw [popcount_mul_pow_add (n % 32) _ _ (Nat.mod_lt _ (Nat.two_pow_pos _))]
  rw [popcount_mul_pow_add (32 - n % 32) _ _ hdivlt]
  omega

/-- C7: for every 32-bit word `x` and every shift amount `k`, the
rotate operations used by the WLSF/WLSFR (rotate_left) and WRSF/WRSFR
(rotate_right) instructions produce a result with the same popcount as
`x`; and the four rotate instruction handlers are exactly the `rw`/`rr`
instruction shapes applied to these rotates. -/
theorem claim_C7 (x k : Nat) (hx : x < W32) :
    popcount (rotl32 x k) = popcount x ∧
    popcount (rotr32 x k) = popcount x ∧
    WLSF = instrRW rotl32 ∧ WLSFR = instrRR rotl32 ∧
    WRSF = instrRW rotr32 ∧ WRSFR = instrRR rotr32 :=
  ⟨popcount_rotl32 x k hx, popcount_rotr32 x k hx, rfl, rfl, rfl, rfl⟩

/-- Witness for C7 at the concrete input `x = 0xDEADBEEF`, `k = 13`. -/
theorem claim_C7_witness :
    popcount (rotl32 0xDEADBEEF 13) = popcount 0xDEADBEEF ∧
    popcount (rotr32 0xDEADBEEF 13) = popcount 0xDEADBEEF ∧
    WLSF = instrRW rotl32 ∧ WLSFR = instrRR rotl32 ∧
    WRSF = instrRW rotr32 ∧ WRSFR = instrRR rotr32 :=
  claim_C7 0xDEADBEEF 13 (by decide)

theorem wrap_small (x : Nat) (h : x < W32) : wrap x = x := Nat.mod_eq_of_lt h

theorem beSet_apply (m : Nat → Nat) (a v x : Nat) :
    beSet m a v x =
      if x = a + 3 then v % 256
      else if x = a + 2 then v / 256 % 256
      else if x = a + 1 then v / 65536 % 256
      else if x = a then v / 16777216 % 256
      else m x := rfl

theorem beSet_beSet_same (m : Nat → Nat) (a v w : Nat) :
    beSet (beSet m a v) a w = beSet m a w := by
  funext x
  rw [beSet_apply, beSet_apply, beSet_apply]
  split_ifs <;> rfl

theorem fetch_byte_eq (c : CPU) (hsize : c.registers.size = 52) :
    c.fetch_byte = some (byteAt c.mem (beGet c.registers.data RPC),
      { c with registers := ⟨52, beSet c.registers.data RPC
          (wrap (beGet c.registers.data RPC + 1))⟩ }) := by
  unfold CPU.fetch_byte
  rw [get_reg_some c RPC (by rw [hsize]; unfold RPC; omega)]
  simp only [Option.bind_eq_bind, Option.some_bind]
  rw [set_reg_some _ RPC _ (by rw [hsize]; unfold RPC; omega)]
  simp [hsize]

theorem fetch_word_eq (c : CPU) (hsize : c.registers.size = 52) :
    c.fetch_word = some (beGet c.mem (beGet c.registers.data RPC),
      { c with registers := ⟨52, beSet c.registers.data RPC
          (wrap (beGet c.registers.data RPC + 4))⟩ }) := by
  unfold CPU.fetch_word
  rw [get_reg_some c RPC (by rw [hsize]; unfold RPC; omega)]
  simp only [Option.bind_eq_bind, Option.some_bind]
  rw [set_reg_some _ RPC _ (by rw [hsize]; unfold RPC; omega)]
  simp [hsize]

/-- Characterization of the `rw` instruction shape: operands fetched in
order (register address word, then literal word, `pc` advancing by 8),
the result `f [R] W` stored into the first register operand `R`, and
`update_sr` called with the old value of `[R]` and the result. -/
theorem instrRW_eq (c : CPU) (f : Nat → Nat → Nat) (pc0 r v : Nat)
    (hsize : c.registers.size = 52)
    (hpc0 : beGet c.registers.data RPC = pc0)
    (hrdef : beGet c.mem pc0 = r)
    (hvdef : beGet c.mem (pc0 + 4) = v)
    (hpc : pc0 + 8 < W32)
    (hr4 : r % 4 = 0) (hr48 : r ≤ 48) (hrpc : r ≠ RPC) :
    instrRW f c = CPU.update_sr
      { c with registers := ⟨52, beSet (beSet c.registers.data RPC (pc0 + 8)) r
          (f (beGet c.registers.data r) v)⟩ }
      (beGet c.registers.data r) (f (beGet c.registers.data r) v) := by
  have hrpc32 : r ≠ 32 := by unfold RPC at hrpc; exact hrpc
  unfold instrRW
  rw [fetch_word_eq c hsize, hpc0, hrdef, wrap_small _ (by unfold W32 at hpc ⊢; omega)]
  simp only [Option.bind_eq_bind, Option.some_bind]
  rw [get_reg_some _ r (show r + 3 < 52 by omega)]
  rw [beGet_beSet_out _ _ _ _ (by unfold RPC; omega)]
  simp only [Option.bind_eq_bind, Option.some_bind]
  rw [fetch_word_eq _ rfl]
  rw [beGet_beSet_same]
  rw [Nat.mod_eq_of_lt (show pc0 + 4 < W32 by unfold W32 at hpc ⊢; omega)]
  rw [hvdef]
  rw [wrap_small _ (by unfold W32 at hpc ⊢; omega)]
  rw [(by omega : pc0 + 4 + 4 = pc0 + 8)]
  rw [beSet_beSet_same]
  simp only [Option.bind_eq_bind, Option.some_bind]
  rw [set_reg_some _ r _ (show r + 3 < 52 by omega)]
  simp only [Option.bind_eq_bind, Option.some_bind]

/-- Characterization of the `rr` instruction shape: two register
address words fetched in order, the result `f [R1] [R2]` stored into
the FIRST register operand, and `update_sr([R1]_old, result)`. -/
theorem instrRR_eq (c : CPU) (f : Nat → Nat → Nat) (pc0 r1 r2 : Nat)
    (hsize : c.registers.size = 52)
    (hpc0 : beGet c.registers.data RPC = pc0)
    (hr1def : beGet c.mem pc0 = r1)
    (hr2def : beGet c.mem (pc0 + 4) = r2)
    (hpc : pc0 + 8 < W32)
    (hr14 : r1 % 4 = 0) (hr148 : r1 ≤ 48) (hr1pc : r1 ≠ RPC)
    (hr24 : r2 % 4 = 0) (hr248 : r2 ≤ 48) (hr2pc : r2 ≠ RPC) :
    instrRR f c = CPU.update_sr
      { c with registers := ⟨52, beSet (beSet c.registers.data RPC (pc0 + 8)) r1
          (f (beGet c.registers.data r1) (beGet c.registers.data r2))⟩ }
      (beGet c.registers.data r1)
      (f (beGet c.registers.data r1) (beGet c.registers.data r2)) := by
  have hr132 : r1 ≠ 32 := by unfold RPC at hr1pc; exact hr1pc
  have hr232 : r2 ≠ 32 := by unfold RPC at hr2pc; exact hr2pc
  unfold instrRR
  rw [fetch_word_eq c hsize, hpc0, hr1def,
    wrap_small _ (by unfold W32 at hpc ⊢; omega)]
  simp only [Option.bind_eq_bind, Option.some_bind]
  rw [fetch_word_eq _ rfl, beGet_beSet_same,
    Nat.mod_eq_of_lt (show pc0 + 4 < W32 by unfold W32 at hpc ⊢; omega), hr2def,
    wrap_small _ (by unfold W32 at hpc ⊢; omega),
    (by omega : pc0 + 4 + 4 = pc0 + 8), beSet_beSet_same]
  simp only [Option.bind_eq_bind, Option.some_bind]
  rw [get_reg_some _ r1 (show r1 + 3 < 52 by omega)]
  rw [beGet_beSet_out _ _ _ _ (by unfold RPC; omega)]
  simp only [Option.bind_eq_bind, Option.some_bind]
  rw [get_reg_some _ r2 (show r2 + 3 < 52 by omega)]
  rw [beGet_beSet_out _ _ _ _ (by unfold RPC; omega)]
  simp only [Option.bind_eq_bind, Option.some_bind]
  rw [set_reg_some _ r1 _ (show r1 + 3 < 52 by omega)]
  simp only [Option.bind_eq_bind, Option.some_bind]

/-- Characterization of the `NOT` handler: one register address word
fetched, the bitwise complement stored back into that register, and
`update_sr(old_value, result)`. -/
theorem NOT_eq (c : CPU) (pc0 r : Nat)
    (hsize : c.registers.size = 52)
    (hpc0 : beGet c.registers.data RPC = pc0)
    (hrdef : beGet c.mem pc0 = r)
    (hpc : pc0 + 4 < W32)
    (hr4 : r % 4 = 0) (hr48 : r ≤ 48) (hrpc : r ≠ RPC) :
    NOT c = CPU.update_sr
      { c with registers := ⟨52, beSet (beSet c.registers.data RPC (pc0 + 4)) r
          (wnot (beGet c.registers.data r))⟩ }
      (beGet c.registers.data r) (wnot (beGet c.registers.data r)) := by
  have hr32 : r ≠ 32 := by unfold RPC at hrpc; exact hrpc
  unfold NOT
  rw [fetch_word_eq c hsize, hpc0, hrdef,
    wrap_small _ (by unfold W32 at hpc ⊢; omega)]
  simp only [Option.bind_eq_bind, Option.some_bind]
  rw [get_reg_some _ r (show r + 3 < 52 by omega)]
  rw [beGet_beSet_out _ _ _ _ (by unfold RPC; omega)]
  simp only [Option.bind_eq_bind, Option.some_bind]
  rw [set_reg_some _ r _ (show r + 3 < 52 by omega)]
  simp only [Option.bind_eq_bind, Option.some_bind]

/-- C6: every bitwise instruction handler fetches its operands in the
order listed in the opcode table, stores the result into the first
register operand (not the accumulator), and calls `update_sr` with the
first operand's old value as `pre` and the result as `post`; the
fourteen two-operand handlers are exactly the `rw`/`rr` shapes applied
to the corresponding word operations (`wshl32` shifts by the amount
modulo 32, so LSF sets `[R] ← [R] << (W % 32)` truncated to 32 bits),
and `NOT` complements a single register. -/
theorem claim_C6 :
    (∀ (c : CPU) (f : Nat → Nat → Nat) (pc0 r v : Nat),
      c.registers.size = 52 → beGet c.registers.data RPC = pc0 →
      beGet c.mem pc0 = r → beGet c.mem (pc0 + 4) = v → pc0 + 8 < W32 →
      r % 4 = 0 → r ≤ 48 → r ≠ RPC →
      instrRW f c = CPU.update_sr
        { c with registers := ⟨52, beSet (beSet c.registers.data RPC (pc0 + 8)) r
            (f (beGet c.registers.data r) v)⟩ }
        (beGet c.registers.data r) (f (beGet c.registers.data r) v)) ∧
    (∀ (c : CPU) (f : Nat → Nat → Nat) (pc0 r1 r2 : Nat),
      c.registers.size = 52 → beGet c.registers.data RPC = pc0 →
      beGet c.mem pc0 = r1 → beGet c.mem (pc0 + 4) = r2 → pc0 + 8 < W32 →
      r1 % 4 = 0 → r1 ≤ 48 → r1 ≠ RPC → r2 % 4 = 0 → r2 ≤ 48 → r2 ≠ RPC →
      instrRR f c = CPU.update_sr
        { c with registers := ⟨52, beSet (beSet c.registers.data RPC (pc0 + 8)) r1
            (f (beGet c.registers.data r1) (beGet c.registers.data r2))⟩ }
        (beGet c.registers.data r1)
        (f (beGet c.registers.data r1) (beGet c.registers.data r2))) ∧
    (∀ (c : CPU) (pc0 r : Nat),
      c.registers.size = 52 → beGet c.registers.data RPC = pc0 →
      beGet c.mem pc0 = r → pc0 + 4 < W32 →
      r % 4 = 0 → r ≤ 48 → r ≠ RPC →
      NOT c = CPU.update_sr
        { c with registers := ⟨52, beSet (beSet c.registers.data RPC (pc0 + 4)) r
            (wnot (beGet c.registers.data r))⟩ }
        (beGet c.registers.data r) (wnot (beGet c.registers.data r))) ∧
    LSF = instrRW wshl32 ∧ LSFR = instrRR wshl32 ∧
    RSF = instrRW wshr32 ∧ RSFR = instrRR wshr32 ∧
    WLSF = instrRW rotl32 ∧ WLSFR = instrRR rotl32 ∧
    WRSF = instrRW rotr32 ∧ WRSFR = instrRR rotr32 ∧
    AND = instrRW Nat.land ∧ ANDR = instrRR Nat.land ∧
    OR = instrRW Nat.lor ∧ ORR = instrRR Nat.lor ∧
    XOR = instrRW Nat.xor ∧ XORR = instrRR Nat.xor :=
  ⟨instrRW_eq, instrRR_eq, NOT_eq, rfl, rfl, rfl, rfl, rfl, rfl, rfl, rfl,
    rfl, rfl, rfl, rfl, rfl, rfl⟩

/-- Witness for C6: the `rw` shape instantiated at `zeroCPU` and
`f = wshl32` (the LSF operation); the fetched register operand is
register offset 0 (`r1`) and the literal is 0. -/
theorem claim_C6_witness :
    instrRW wshl32 zeroCPU = CPU.update_sr
      { zeroCPU with registers :=
          ⟨52, beSet (beSet zeroCPU.registers.data RPC (0 + 8)) 0
            (wshl32 (beGet zeroCPU.registers.data 0) 0)⟩ }
      (beGet zeroCPU.registers.data 0)
      (wshl32 (beGet zeroCPU.registers.data 0) 0) :=
  claim_C6.1 zeroCPU wshl32 0 0 0 rfl (by decide) (by decide) (by decide)
    (by decide) (by decide) (by decide) (by decide)

/-! ### Halt-signal preservation

The `halt_signal` flag is written in exactly one place of the source:
the `0xFF` arm of the `generate_execute!` macro.  The following lemmas
check that no instruction handler (nor any CPU primitive they use)
touches it. -/

theorem hp_set_reg {c c' : CPU} {a v : Nat} (h : c.set_reg a v = some c') :
    c'.halt_signal = c.halt_signal := by
  unfold CPU.set_reg at h
  rcases hm : c.registers.set_word a v with _ | r
  · rw [hm] at h; simp at h
  · rw [hm] at h
    simp only [Option.map_some', Option.some.injEq] at h
    rw [← h]

theorem hp_fetch_byte {c c' : CPU} {w : Nat}
    (h : c.fetch_byte = some (w, c')) : c'.halt_signal = c.halt_signal := by
  unfold CPU.fetch_byte at h
  simp only [Option.bind_eq_bind, Option.bind_eq_some] at h
  obtain ⟨pcv, _, h⟩ := h
  obtain ⟨c2, hs, h⟩ := h
  simp only [Option.pure_def, Option.some.injEq, Prod.mk.injEq] at h
  rw [← h.2, hp_set_reg hs]

theorem hp_fetch_word {c c' : CPU} {w : Nat}
    (h : c.fetch_word = some (w, c')) : c'.halt_signal = c.halt_signal := by
  unfold CPU.fetch_word at h
  simp only [Option.bind_eq_bind, Option.bind_eq_some] at h
  obtain ⟨pcv, _, h⟩ := h
  obtain ⟨c2, hs, h⟩ := h
  simp only [Option.pure_def, Option.some.injEq, Prod.mk.injEq] at h
  rw [← h.2, hp_set_reg hs]

theorem hp_push {c c' : CPU} {v : Nat} (h : c.push v = some c') :
    c'.halt_signal = c.halt_signal := by
  unfold CPU.push at h
  simp only [Option.bind_eq_bind, Option.bind_eq_some] at h
  obtain ⟨sp, _, h⟩ := h
  split at h
  · simp at h
  · simp only [Option.bind_eq_bind, Option.bind_eq_some] at h
    obtain ⟨c3, hs, h⟩ := h
    simp only [Option.pure_def, Option.some.injEq] at h
    rw [← h]
    show c3.halt_signal = c.halt_signal
    exact (hp_set_reg hs).trans rfl

theorem hp_pop {c c' : CPU} {v : Nat} (h : c.pop = some (v, c')) :
    c'.halt_signal = c.halt_signal := by
  unfold CPU.pop at h
  simp only [Option.bind_eq_bind, Option.bind_eq_some] at h
  obtain ⟨sp, _, h⟩ := h
  split at h
  · simp at h
  · simp only [Option.bind_eq_bind, Option.bind_eq_some] at h
    obtain ⟨c2, hs, h⟩ := h
    simp only [Option.pure_def, Option.some.injEq, Prod.mk.injEq] at h
    rw [← h.2]
    show c2.halt_signal = c.halt_signal
    exact (hp_set_reg hs).trans rfl

theorem hp_update_sr {c c' : CPU} {pre post : Nat}
    (h : c.update_sr pre post = some c') :
    c'.halt_signal = c.halt_signal := by
  unfold CPU.update_sr at h
  by_cases h1 : post = 0 <;> by_cases h2 : pre > post
  · simp only [eq_true h1, eq_true h2, ite_true] at h
    simp only [Option.bind_eq_bind, Option.bind_eq_some] at h
    obtain ⟨r1, -, r2, -, h⟩ := h
    simp only [Option.pure_def, Option.some.injEq] at h
    rw [← h]
  · simp only [eq_true h1, eq_false h2, ite_true, ite_false] at h
    simp only [Option.bind_eq_bind, Option.bind_eq_some] at h
    obtain ⟨r1, -, r2, -, h⟩ := h
    simp only [Option.pure_def, Option.some.injEq] at h
    rw [← h]
  · simp only [eq_false h1, eq_true h2, ite_true, ite_false] at h
    simp only [Option.bind_eq_bind, Option.bind_eq_some] at h
    obtain ⟨r1, -, r2, -, h⟩ := h
    simp only [Option.pure_def, Option.some.injEq] at h
    rw [← h]
  · simp only [eq_false h1, eq_false h2, ite_false] at h
    simp only [Option.bind_eq_bind, Option.bind_eq_some] at h
    obtain ⟨r1, -, r2, -, h⟩ := h
    simp only [Option.pure_def, Option.some.injEq] at h
    rw [← h]

theorem hp_pushRegs {l : List Nat} : ∀ {c c' : CPU},
    c.pushRegs l = some c' → c'.halt_signal = c.halt_signal := by
  induction l with
  | nil => intro c c' h; simp [CPU.pushRegs] at h; rw [h]
  | cons i rest ih =>
    intro c c' h
    unfold CPU.pushRegs at h
    simp only [Option.bind_eq_bind, Option.bind_eq_some] at h
    obtain ⟨v, _, h⟩ := h
    obtain ⟨c2, hpush, h⟩ := h
    rw [ih h, hp_push hpush]

theorem hp_push_state {c c' : CPU} (h : c.push_state = some c') :
    c'.halt_signal = c.halt_signal := by
  unfold CPU.push_state at h
  simp only [Option.bind_eq_bind, Option.bind_eq_some] at h
  obtain ⟨c1, h1, h⟩ := h
  obtain ⟨pcv, _, h⟩ := h
  obtain ⟨c2, h2, h⟩ := h
  obtain ⟨c3, h3, h⟩ := h
  obtain ⟨spv, _, h⟩ := h
  obtain ⟨c4, h4, h⟩ := h
  simp only [Option.pure_def, Option.some.injEq] at h
  rw [← h]
  show c4.halt_signal = c.halt_signal
  rw [hp_set_reg h4, hp_push h3, hp_push h2, hp_pushRegs h1]

theorem hp_popRegsRev {l : List Nat} : ∀ {c c' : CPU},
    c.popRegsRev l = some c' → c'.halt_signal = c.halt_signal := by
  induction l with
  | nil => intro c c' h; simp [CPU.popRegsRev] at h; rw [h]
  | cons i rest ih =>
    intro c c' h
    unfold CPU.popRegsRev at h
    simp only [Option.bind_eq_bind, Option.bind_eq_some] at h
    obtain ⟨⟨v, c2⟩, hpop, h⟩ := h
    obtain ⟨c3, hs, h⟩ := h
    rw [ih h, hp_set_reg hs, hp_pop hpop]

theorem hp_popN : ∀ {n : Nat} {c c' : CPU},
    c.popN n = some c' → c'.halt_signal = c.halt_signal := by
  intro n
  induction n with
  | zero => intro c c' h; simp [CPU.popN] at h; rw [h]
  | succ n ih =>
    intro c c' h
    unfold CPU.popN at h
    simp only [Option.bind_eq_bind, Option.bind_eq_some] at h
    obtain ⟨⟨v, c2⟩, hpop, h⟩ := h
    rw [ih h, hp_pop hpop]

theorem hp_pop_state {c c' : CPU} (h : c.pop_state = some c') :
    c'.halt_signal = c.halt_signal := by
  unfold CPU.pop_state at h
  simp only [Option.bind_eq_bind, Option.bind_eq_some] at h
  obtain ⟨fp_addr, _, h⟩ := h
  obtain ⟨c1, h1, h⟩ := h
  obtain ⟨⟨sfs, c3⟩, h3, h⟩ := h
  obtain ⟨⟨pcv, c5⟩, h5, h⟩ := h
  obtain ⟨c6, h6, h⟩ := h
  obtain ⟨c7, h7, h⟩ := h
  obtain ⟨⟨arg_count, c8⟩, h8, h⟩ := h
  obtain ⟨c9, h9, h⟩ := h
  rw [hp_set_reg h, hp_popN h9, hp_pop h8, hp_popRegsRev h7, hp_set_reg h6,
    hp_pop h5]
  show c3.halt_signal = c.halt_signal
  rw [hp_pop h3]
  show c1.halt_signal = c.halt_signal
  exact hp_set_reg h1

theorem hp_instrRW {f : Nat → Nat → Nat} {c c' : CPU}
    (h : instrRW f c = some c') : c'.halt_signal = c.halt_signal := by
  unfold instrRW at h
  simp only [Option.bind_eq_bind, Option.bind_eq_some] at h
  obtain ⟨⟨r, c1⟩, hf1, h⟩ := h
  obtain ⟨v, -, h⟩ := h
  obtain ⟨⟨w, c2⟩, hf2, h⟩ := h
  obtain ⟨c3, hs, h⟩ := h
  rw [hp_update_sr h, hp_set_reg hs, hp_fetch_word hf2, hp_fetch_word hf1]

theorem hp_instrRR {f : Nat → Nat → Nat} {c c' : CPU}
    (h : instrRR f c = some c') : c'.halt_signal = c.halt_signal := by
  unfold instrRR at h
  simp only [Option.bind_eq_bind, Option.bind_eq_some] at h
  obtain ⟨⟨r1, c1⟩, hf1, h⟩ := h
  obtain ⟨⟨r2, c2⟩, hf2, h⟩ := h
  obtain ⟨v1, -, h⟩ := h
  obtain ⟨v2, -, h⟩ := h
  obtain ⟨c3, hs, h⟩ := h
  rw [hp_update_sr h, hp_set_reg hs, hp_fetch_word hf2, hp_fetch_word hf1]

theorem hp_NOT {c c' : CPU} (h : NOT c = some c') :
    c'.halt_signal = c.halt_signal := by
  unfold NOT at h
  simp only [Option.bind_eq_bind, Option.bind_eq_some] at h
  obtain ⟨⟨r, c1⟩, hf1, h⟩ := h
  obtain ⟨v, -, h⟩ := h
  obtain ⟨c2, hs, h⟩ := h
  rw [hp_update_sr h, hp_set_reg hs, hp_fetch_word hf1]

theorem hp_MOVR {c c' : CPU} (h : MOVR c = some c') :
    c'.halt_signal = c.halt_signal := by
  unfold MOVR at h
  simp only [Option.bind_eq_bind, Option.bind_eq_some] at h
  obtain ⟨⟨w, c1⟩, hf1, h⟩ := h
  obtain ⟨⟨a, c2⟩, hf2, h⟩ := h
  rw [hp_set_reg h, hp_fetch_word hf2, hp_fetch_word hf1]

theorem hp_MOVM {c c' : CPU} (h : MOVM c = some c') :
    c'.halt_signal = c.halt_signal := by
  unfold MOVM at h
  simp only [Option.bind_eq_bind, Option.bind_eq_some] at h
  obtain ⟨⟨w, c1⟩, hf1, h⟩ := h
  obtain ⟨⟨a, c2⟩, hf2, h⟩ := h
  simp only [Option.pure_def, Option.some.injEq] at h
  rw [← h]
  show c2.halt_signal = c.halt_signal
  rw [hp_fetch_word hf2, hp_fetch_word hf1]

theorem hp_MOVRR {c c' : CPU} (h : MOVRR c = some c') :
    c'.halt_signal = c.halt_signal := by
  unfold MOVRR at h
  simp only [Option.bind_eq_bind, Option.bind_eq_some] at h
  obtain ⟨⟨r1, c1⟩, hf1, h⟩ := h
  obtain ⟨⟨r2, c2⟩, hf2, h⟩ := h
  obtain ⟨v, -, h⟩ := h
  rw [hp_set_reg h, hp_fetch_word hf2, hp_fetch_word hf1]

theorem hp_MOVRM {c c' : CPU} (h : MOVRM c = some c') :
    c'.halt_signal = c.halt_signal := by
  unfold MOVRM at h
  simp only [Option.bind_eq_bind, Option.bind_eq_some] at h
  obtain ⟨⟨r, c1⟩, hf1, h⟩ := h
  obtain ⟨⟨a, c2⟩, hf2, h⟩ := h
  obtain ⟨v, -, h⟩ := h
  simp only [Option.pure_def, Option.some.injEq] at h
  rw [← h]
  show c2.halt_signal = c.halt_signal
  rw [hp_fetch_word hf2, hp_fetch_word hf1]

theorem hp_MOVMR {c c' : CPU} (h : MOVMR c = some c') :
    c'.halt_signal = c.halt_signal := by
  unfold MOVMR at h
  simp only [Option.bind_eq_bind, Option.bind_eq_some] at h
  obtain ⟨⟨a, c1⟩, hf1, h⟩ := h
  obtain ⟨⟨r, c2⟩, hf2, h⟩ := h
  rw [hp_set_reg h, hp_fetch_word hf2, hp_fetch_word hf1]

theorem hp_MOVRPR {c c' : CPU} (h : MOVRPR c = some c') :
    c'.halt_signal = c.halt_signal := by
  unfold MOVRPR at h
  simp only [Option.bind_eq_bind, Option.bind_eq_some] at h
  obtain ⟨⟨r1, c1⟩, hf1, h⟩ := h
  obtain ⟨⟨r2, c2⟩, hf2, h⟩ := h
  obtain ⟨p, -, h⟩ := h
  rw [hp_set_reg h, hp_fetch_word hf2, hp_fetch_word hf1]

theorem hp_MOVROR {c c' : CPU} (h : MOVROR c = some c') :
    c'.halt_signal = c.halt_signal := by
  unfold MOVROR at h
  simp only [Option.bind_eq_bind, Option.bind_eq_some] at h
  obtain ⟨⟨r1, c1⟩, hf1, h⟩ := h
  obtain ⟨⟨w, c2⟩, hf2, h⟩ := h
  obtain ⟨⟨r2, c3⟩, hf3, h⟩ := h
  obtain ⟨p, -, h⟩ := h
  rw [hp_set_reg h, hp_fetch_word hf3, hp_fetch_word hf2, hp_fetch_word hf1]

theorem hp_POP {c c' : CPU} (h : POP c = some c') :
    c'.halt_signal = c.halt_signal := by
  unfold POP at h
  simp only [Option.bind_eq_bind, Option.bind_eq_some] at h
  obtain ⟨⟨r, c1⟩, hf1, h⟩ := h
  obtain ⟨⟨v, c2⟩, hpop, h⟩ := h
  rw [hp_set_reg h, hp_pop hpop, hp_fetch_word hf1]

theorem hp_PUSH {c c' : CPU} (h : PUSH c = some c') :
    c'.halt_signal = c.halt_signal := by
  unfold PUSH at h
  simp only [Option.bind_eq_bind, Option.bind_eq_some] at h
  obtain ⟨⟨w, c1⟩, hf1, h⟩ := h
  rw [hp_push h, hp_fetch_word hf1]

theorem hp_PUSHR {c c' : CPU} (h : PUSHR c = some c') :
    c'.halt_signal = c.halt_signal := by
  unfold PUSHR at h
  simp only [Option.bind_eq_bind, Option.bind_eq_some] at h
  obtain ⟨⟨r, c1⟩, hf1, h⟩ := h
  obtain ⟨v, -, h⟩ := h
  rw [hp_push h, hp_fetch_word hf1]

theorem hp_LOAD {c c' : CPU} (h : LOAD c = some c') :
    c'.halt_signal = c.halt_signal := by
  unfold LOAD at h
  simp only [Option.bind_eq_bind, Option.bind_eq_some] at h
  obtain ⟨⟨w, c1⟩, hf1, h⟩ := h
  obtain ⟨⟨r, c2⟩, hf2, h⟩ := h
  rw [hp_set_reg h, hp_fetch_word hf2, hp_fetch_word hf1]

theorem hp_LOADR {c c' : CPU} (h : LOADR c = some c') :
    c'.halt_signal = c.halt_signal := by
  unfold LOADR at h
  simp only [Option.bind_eq_bind, Option.bind_eq_some] at h
  obtain ⟨⟨r1, c1⟩, hf1, h⟩ := h
  obtain ⟨⟨r2, c2⟩, hf2, h⟩ := h
  obtain ⟨v, -, h⟩ := h
  rw [hp_set_reg h, hp_fetch_word hf2, hp_fetch_word hf1]

theorem hp_LOADM {c c' : CPU} (h : LOADM c = some c') :
    c'.halt_signal = c.halt_signal := by
  unfold LOADM at h
  simp only [Option.bind_eq_bind, Option.bind_eq_some] at h
  obtain ⟨⟨a, c1⟩, hf1, h⟩ := h
  obtain ⟨⟨r, c2⟩, hf2, h⟩ := h
  rw [hp_set_reg h, hp_fetch_word hf2, hp_fetch_word hf1]

theorem hp_STORE {c c' : CPU} (h : STORE c = some c') :
    c'.halt_signal = c.halt_signal := by
  unfold STORE at h
  simp only [Option.bind_eq_bind, Option.bind_eq_some] at h
  obtain ⟨⟨w, c1⟩, hf1, h⟩ := h
  obtain ⟨⟨a, c2⟩, hf2, h⟩ := h
  simp only [Option.pure_def, Option.some.injEq] at h
  rw [← h]
  show c2.halt_signal = c.halt_signal
  rw [hp_fetch_word hf2, hp_fetch_word hf1]

theorem hp_STORER {c c' : CPU} (h : STORER c = some c') :
    c'.halt_signal = c.halt_signal := by
  unfold STORER at h
  simp only [Option.bind_eq_bind, Option.bind_eq_some] at h
  obtain ⟨⟨r, c1⟩, hf1, h⟩ := h
  obtain ⟨⟨a, c2⟩, hf2, h⟩ := h
  obtain ⟨v, -, h⟩ := h
  simp only [Option.pure_def, Option.some.injEq] at h
  rw [← h]
  show c2.halt_signal = c.halt_signal
  rw [hp_fetch_word hf2, hp_fetch_word hf1]

theorem hp_STOREM {c c' : CPU} (h : STOREM c = some c') :
    c'.halt_signal = c.halt_signal := by
  unfold STOREM at h
  simp only [Option.bind_eq_bind, Option.bind_eq_some] at h
  obtain ⟨⟨a1, c1⟩, hf1, h⟩ := h
  obtain ⟨⟨a2, c2⟩, hf2, h⟩ := h
  simp only [Option.pure_def, Option.some.injEq] at h
  rw [← h]
  show c2.halt_signal = c.halt_signal
  rw [hp_fetch_word hf2, hp_fetch_word hf1]

theorem hp_JMP {c c' : CPU} (h : JMP c = some c') :
    c'.halt_signal = c.halt_signal := by
  unfold JMP at h
  simp only [Option.bind_eq_bind, Option.bind_eq_some] at h
  obtain ⟨⟨a, c1⟩, hf1, h⟩ := h
  rw [hp_set_reg h, hp_fetch_word hf1]

theorem hp_CALL {c c' : CPU} (h : CALL c = some c') :
    c'.halt_signal = c.halt_signal := by
  unfold CALL at h
  simp only [Option.bind_eq_bind, Option.bind_eq_some] at h
  obtain ⟨⟨a, c1⟩, hf1, h⟩ := h
  obtain ⟨c2, hps, h⟩ := h
  rw [hp_set_reg h, hp_push_state hps, hp_fetch_word hf1]

theorem hp_CALLR {c c' : CPU} (h : CALLR c = some c') :
    c'.halt_signal = c.halt_signal := by
  unfold CALLR at h
  simp only [Option.bind_eq_bind, Option.bind_eq_some] at h
  obtain ⟨⟨r, c1⟩, hf1, h⟩ := h
  obtain ⟨a, -, h⟩ := h
  obtain ⟨c2, hps, h⟩ := h
  rw [hp_set_reg h, hp_push_state hps, hp_fetch_word hf1]

theorem hp_RET {c c' : CPU} (h : RET c = some c') :
    c'.halt_signal = c.halt_signal := hp_pop_state h

theorem hp_arithWR {f : Nat → Nat → Nat} {c c' : CPU}
    (h : arithWR f c = some c') : c'.halt_signal = c.halt_signal := by
  unfold arithWR at h
  simp only [Option.bind_eq_bind, Option.bind_eq_some] at h
  obtain ⟨⟨w, c1⟩, hf1, h⟩ := h
  obtain ⟨⟨r, c2⟩, hf2, h⟩ := h
  obtain ⟨v, -, h⟩ := h
  obtain ⟨c3, hs, h⟩ := h
  rw [hp_update_sr h, hp_set_reg hs, hp_fetch_word hf2, hp_fetch_word hf1]

theorem hp_arithRW {f : Nat → Nat → Nat} {c c' : CPU}
    (h : arithRW f c = some c') : c'.halt_signal = c.halt_signal := by
  unfold arithRW at h
  simp only [Option.bind_eq_bind, Option.bind_eq_some] at h
  obtain ⟨⟨r, c1⟩, hf1, h⟩ := h
  obtain ⟨v, -, h⟩ := h
  obtain ⟨⟨w, c2⟩, hf2, h⟩ := h
  obtain ⟨c3, hs, h⟩ := h
  rw [hp_update_sr h, hp_set_reg hs, hp_fetch_word hf2, hp_fetch_word hf1]

theorem hp_arithRR {f : Nat → Nat → Nat} {c c' : CPU}
    (h : arithRR f c = some c') : c'.halt_signal = c.halt_signal := by
  unfold arithRR at h
  simp only [Option.bind_eq_bind, Option.bind_eq_some] at h
  obtain ⟨⟨r1, c1⟩, hf1, h⟩ := h
  obtain ⟨⟨r2, c2⟩, hf2, h⟩ := h
  obtain ⟨v1, -, h⟩ := h
  obtain ⟨v2, -, h⟩ := h
  obtain ⟨c3, hs, h⟩ := h
  rw [hp_update_sr h, hp_set_reg hs, hp_fetch_word hf2, hp_fetch_word hf1]

theorem hp_DIV {c c' : CPU} (h : DIV c = some c') :
    c'.halt_signal = c.halt_signal := by
  unfold DIV at h
  simp only [Option.bind_eq_bind, Option.bind_eq_some] at h
  obtain ⟨⟨w, c1⟩, hf1, h⟩ := h
  obtain ⟨⟨r, c2⟩, hf2, h⟩ := h
  obtain ⟨v, -, h⟩ := h
  split at h
  · simp at h
  · simp only [Option.bind_eq_bind, Option.bind_eq_some] at h
    obtain ⟨c3, hs, h⟩ := h
    rw [hp_update_sr h, hp_set_reg hs, hp_fetch_word hf2, hp_fetch_word hf1]

theorem hp_DIVWR {c c' : CPU} (h : DIVWR c = some c') :
    c'.halt_signal = c.halt_signal := by
  unfold DIVWR at h
  simp only [Option.bind_eq_bind, Option.bind_eq_some] at h
  obtain ⟨⟨r, c1⟩, hf1, h⟩ := h
  obtain ⟨v, -, h⟩ := h
  obtain ⟨⟨w, c2⟩, hf2, h⟩ := h
  split at h
  · simp at h
  · simp only [Option.bind_eq_bind, Option.bind_eq_some] at h
    obtain ⟨c3, hs, h⟩ := h
    rw [hp_update_sr h, hp_set_reg hs, hp_fetch_word hf2, hp_fetch_word hf1]

theorem hp_DIVR {c c' : CPU} (h : DIVR c = some c') :
    c'.halt_signal = c.halt_signal := by
  unfold DIVR at h
  simp only [Option.bind_eq_bind, Option.bind_eq_some] at h
  obtain ⟨⟨r1, c1⟩, hf1, h⟩ := h
  obtain ⟨⟨r2, c2⟩, hf2, h⟩ := h
  obtain ⟨v1, -, h⟩ := h
  obtain ⟨v2, -, h⟩ := h
  split at h
  · simp at h
  · simp only [Option.bind_eq_bind, Option.bind_eq_some] at h
    obtain ⟨c3, hs, h⟩ := h
    rw [hp_update_sr h, hp_set_reg hs, hp_fetch_word hf2, hp_fetch_word hf1]

theorem hp_INC {c c' : CPU} (h : INC c = some c') :
    c'.halt_signal = c.halt_signal := by
  unfold INC at h
  simp only [Option.bind_eq_bind, Option.bind_eq_some] at h
  obtain ⟨⟨r, c1⟩, hf1, h⟩ := h
  obtain ⟨v, -, h⟩ := h
  obtain ⟨c2, hs, h⟩ := h
  rw [hp_update_sr h, hp_set_reg hs, hp_fetch_word hf1]

theorem hp_DEC {c c' : CPU} (h : DEC c = some c') :
    c'.halt_signal = c.halt_signal := by
  unfold DEC at h
  simp only [Option.bind_eq_bind, Option.bind_eq_some] at h
  obtain ⟨⟨r, c1⟩, hf1, h⟩ := h
  obtain ⟨v, -, h⟩ := h
  obtain ⟨c2, hs, h⟩ := h
  rw [hp_update_sr h, hp_set_reg hs, hp_fetch_word hf1]

theorem hp_BRBS {c c' : CPU} (h : BRBS c = some c') :
    c'.halt_signal = c.halt_signal := by
  unfold BRBS at h
  simp only [Option.bind_eq_bind, Option.bind_eq_some] at h
  obtain ⟨⟨f, c1⟩, hf1, h⟩ := h
  obtain ⟨⟨a, c2⟩, hf2, h⟩ := h
  split at h
  · rw [hp_set_reg h, hp_fetch_word hf2, hp_fetch_byte hf1]
  · simp only [Option.pure_def, Option.some.injEq] at h
    rw [← h]
    show c2.halt_signal = c.halt_signal
    rw [hp_fetch_word hf2, hp_fetch_byte hf1]

theorem hp_BRBC {c c' : CPU} (h : BRBC c = some c') :
    c'.halt_signal = c.halt_signal := by
  unfold BRBC at h
  simp only [Option.bind_eq_bind, Option.bind_eq_some] at h
  obtain ⟨⟨f, c1⟩, hf1, h⟩ := h
  obtain ⟨⟨a, c2⟩, hf2, h⟩ := h
  split at h
  · simp only [Option.pure_def, Option.some.injEq] at h
    rw [← h]
    show c2.halt_signal = c.halt_signal
    rw [hp_fetch_word hf2, hp_fetch_byte hf1]
  · rw [hp_set_reg h, hp_fetch_word hf2, hp_fetch_byte hf1]

theorem hp_brWA {cmp : Nat → Nat → Bool} {c c' : CPU}
    (h : brWA cmp c = some c') : c'.halt_signal = c.halt_signal := by
  unfold brWA at h
  simp only [Option.bind_eq_bind, Option.bind_eq_some] at h
  obtain ⟨⟨w, c1⟩, hf1, h⟩ := h
  obtain ⟨⟨a, c2⟩, hf2, h⟩ := h
  obtain ⟨acc, -, h⟩ := h
  split at h
  · rw [hp_set_reg h, hp_fetch_word hf2, hp_fetch_word hf1]
  · simp only [Option.pure_def, Option.some.injEq] at h
    rw [← h]
    show c2.halt_signal = c.halt_signal
    rw [hp_fetch_word hf2, hp_fetch_word hf1]

theorem hp_brRA {cmp : Nat → Nat → Bool} {c c' : CPU}
    (h : brRA cmp c = some c') : c'.halt_signal = c.halt_signal := by
  unfold brRA at h
  simp only [Option.bind_eq_bind, Option.bind_eq_some] at h
  obtain ⟨⟨r, c1⟩, hf1, h⟩ := h
  obtain ⟨⟨a, c2⟩, hf2, h⟩ := h
  obtain ⟨rv, -, h⟩ := h
  obtain ⟨acc, -, h⟩ := h
  split at h
  · rw [hp_set_reg h, hp_fetch_word hf2, hp_fetch_word hf1]
  · simp only [Option.pure_def, Option.some.injEq] at h
    rw [← h]
    show c2.halt_signal = c.halt_signal
    rw [hp_fetch_word hf2, hp_fetch_word hf1]

theorem hp_brRWA {cmp : Nat → Nat → Bool} {c c' : CPU}
    (h : brRWA cmp c = some c') : c'.halt_signal = c.halt_signal := by
  unfold brRWA at h
  simp only [Option.bind_eq_bind, Option.bind_eq_some] at h
  obtain ⟨⟨r, c1⟩, hf1, h⟩ := h
  obtain ⟨⟨w, c2⟩, hf2, h⟩ := h
  obtain ⟨⟨a, c3⟩, hf3, h⟩ := h
  obtain ⟨rv, -, h⟩ := h
  split at h
  · rw [hp_set_reg h, hp_fetch_word hf3, hp_fetch_word hf2, hp_fetch_word hf1]
  · simp only [Option.pure_def, Option.some.injEq] at h
    rw [← h]
    show c3.halt_signal = c.halt_signal
    rw [hp_fetch_word hf3, hp_fetch_word hf2, hp_fetch_word hf1]

theorem hp_brRRA {cmp : Nat → Nat → Bool} {c c' : CPU}
    (h : brRRA cmp c = some c') : c'.halt_signal = c.halt_signal := by
  unfold brRRA at h
  simp only [Option.bind_eq_bind, Option.bind_eq_some] at h
  obtain ⟨⟨r1, c1⟩, hf1, h⟩ := h
  obtain ⟨⟨r2, c2⟩, hf2, h⟩ := h
  obtain ⟨⟨a, c3⟩, hf3, h⟩ := h
  obtain ⟨v1, -, h⟩ := h
  obtain ⟨v2, -, h⟩ := h
  split at h
  · rw [hp_set_reg h, hp_fetch_word hf3, hp_fetch_word hf2, hp_fetch_word hf1]
  · simp only [Option.pure_def, Option.some.injEq] at h
    rw [← h]
    show c3.halt_signal = c.halt_signal
    rw [hp_fetch_word hf3, hp_fetch_word hf2, hp_fetch_word hf1]

/-- No opcode other than `0xFF` (HALT) changes `halt_signal`. -/
theorem execute_halt {c c' : CPU} {b : Nat} (hb : b ≠ 0xFF)
    (h : c.execute b = some c') : c'.halt_signal = c.halt_signal := by
  unfold CPU.execute at h
  split at h
  next => exact absurd rfl hb
  next => injection h with h; rw [← h]
  next => exact hp_MOVR h
  next => exact hp_MOVM h
  next => exact hp_MOVRR h
  next => exact hp_MOVRM h
  next => exact hp_MOVMR h
  next => exact hp_MOVRPR h
  next => exact hp_MOVROR h
  next => exact hp_POP h
  next => exact hp_PUSH h
  next => exact hp_PUSHR h
  next => exact hp_LOAD h
  next => exact hp_LOADR h
  next => exact hp_LOADM h
  next => exact hp_STORE h
  next => exact hp_STORER h
  next => exact hp_STOREM h
  next => exact hp_JMP h
  next => exact hp_CALL h
  next => exact hp_CALLR h
  next => exact hp_RET h
  next => exact hp_arithWR h
  next => exact hp_arithRR h
  next => exact hp_arithWR h
  next => exact hp_arithRW h
  next => exact hp_arithRR h
  next => exact hp_arithWR h
  next => exact hp_arithRR h
  next => exact hp_DIV h
  next => exact hp_DIVWR h
  next => exact hp_DIVR h
  next => exact hp_INC h
  next => exact hp_DEC h
  next => exact hp_instrRW h
  next => exact hp_instrRR h
  next => exact hp_instrRW h
  next => exact hp_instrRR h
  next => exact hp_instrRW h
  next => exact hp_instrRR h
  next => exact hp_instrRW h
  next => exact hp_instrRR h
  next => exact hp_instrRW h
  next => exact hp_instrRR h
  next => exact hp_instrRW h
  next => exact hp_instrRR h
  next => exact hp_instrRW h
  next => exact hp_instrRR h
  next => exact hp_NOT h
  next => exact hp_BRBS h
  next => exact hp_BRBC h
  next => exact hp_brWA h
  next => exact hp_brRA h
  next => exact hp_brRWA h
  next => exact hp_brRRA h
  next => exact hp_brWA h
  next => exact hp_brRA h
  next => exact hp_brRWA h
  next => exact hp_brRRA h
  next => exact hp_brWA h
  next => exact hp_brRA h
  next => exact hp_brRWA h
  next => exact hp_brRRA h
  next => exact hp_brWA h
  next => exact hp_brRA h
  next => exact hp_brRWA h
  next => exact hp_brRRA h
  next => exact hp_brWA h
  next => exact hp_brRA h
  next => exact hp_brRWA h
  next => exact hp_brRRA h
  next => exact hp_brWA h
  next => exact hp_brRA h
  next => exact hp_brRWA h
  next => exact hp_brRRA h
  next => exact Option.noConfusion h

theorem runLoop_halted {fuel : Nat} : ∀ {c c' : CPU},
    CPU.runLoop fuel c = .halted c' → c'.halt_signal = true := by
  induction fuel with
  | zero =>
    intro c c' h
    unfold CPU.runLoop at h
    split at h
    · injection h with h; rw [← h]; assumption
    · cases h
  | succ fuel ih =>
    intro c c' h
    unfold CPU.runLoop at h
    split at h
    · injection h with h; rw [← h]; assumption
    · split at h
      · cases h
      · exact ih h

theorem runLoop_halt_now {fuel : Nat} {c : CPU} (h : c.halt_signal = true) :
    CPU.runLoop fuel c = .halted c := by
  cases fuel <;> simp [CPU.runLoop, h]

/-- C8: `run()` and `run_debug()` raise a fatal fault before executing
any instruction when `set_stack` has not been called; with the stack
set, `run()` is exactly the `step()` loop that returns precisely when
`halt_signal` is set; and only the HALT opcode `0xFF` sets
`halt_signal` — every other executed opcode leaves it unchanged, so
the VM terminates only via HALT or a fatal fault. -/
theorem claim_C8 :
    (∀ (fuel : Nat) (c : CPU), c.stack_set = false →
      CPU.run fuel c = .fault ∧ CPU.run_debug fuel c = .fault) ∧
    (∀ (fuel : Nat) (c : CPU), c.stack_set = true →
      CPU.run fuel c = CPU.runLoop fuel c) ∧
    (∀ (fuel : Nat) (c : CPU), c.halt_signal = true →
      CPU.runLoop fuel c = .halted c) ∧
    (∀ (fuel : Nat) (c : CPU), c.halt_signal = false →
      CPU.runLoop (fuel + 1) c =
        match c.step with
        | none => .fault
        | some c2 => CPU.runLoop fuel c2) ∧
    (∀ (fuel : Nat) (c c' : CPU),
      CPU.run fuel c = .halted c' → c'.halt_signal = true) ∧
    (∀ (b : Nat) (c c' : CPU), b ≠ 0xFF → c.execute b = some c' →
      c'.halt_signal = c.halt_signal) ∧
    (∀ c : CPU, c.execute 0xFF = some { c with halt_signal := true }) := by
  refine ⟨?_, ?_, ?_, ?_, ?_, ?_, ?_⟩
  · intro fuel c h
    constructor <;> simp [CPU.run, CPU.run_debug, h]
  · intro fuel c h
    simp [CPU.run, h]
  · intro fuel c h
    exact runLoop_halt_now h
  · intro fuel c h
    unfold CPU.runLoop
    rw [if_neg (by rw [h]; exact Bool.false_ne_true)]
    rcases hs : c.step with _ | c2
    · simp
    · cases fuel <;> simp [CPU.runLoop]
  · intro fuel c c' h
    unfold CPU.run at h
    split at h
    · cases h
    · exact runLoop_halted h
  · intro b c c' hb h
    exact execute_halt hb h
  · intro c
    rfl

/-- Witness for C8 at concrete inputs: a fresh CPU without `set_stack`
faults in both `run` and `run_debug`; `zeroCPU` (stack set) enters the
loop; a halted CPU returns immediately; and HALT sets the signal. -/
theorem claim_C8_witness :
    (CPU.run 5 (CPU.new (fun _ => 0) 0) = .fault ∧
      CPU.run_debug 5 (CPU.new (fun _ => 0) 0) = .fault) ∧
    CPU.run 5 zeroCPU = CPU.runLoop 5 zeroCPU ∧
    CPU.runLoop 5 { zeroCPU with halt_signal := true } =
      .halted { zeroCPU with halt_signal := true } ∧
    zeroCPU.execute 0xFF = some { zeroCPU with halt_signal := true } :=
  ⟨claim_C8.1 5 (CPU.new (fun _ => 0) 0) rfl,
    claim_C8.2.1 5 zeroCPU rfl,
    claim_C8.2.2.1 5 { zeroCPU with halt_signal := true } rfl,
    claim_C8.2.2.2.2.2.2 zeroCPU⟩

theorem wsub_small (a b : Nat) (hb : b ≤ a) (ha : a < W32) :
    wsub a b = a - b := by
  unfold wsub W32 at *
  omega

theorem wadd_small (a b : Nat) (h : a + b < W32) : wadd a b = a + b := by
  unfold wadd
  exact Nat.mod_eq_of_lt h

/-- The program used by the C3 counterexample: a single `LSF`
instruction whose register operand is 44 — the byte offset of `sp` —
and whose literal shift amount is 16. -/
def progC3 : Nat → Nat :=
  fun a => if a = 0 then 0x50 else if a = 4 then 44 else if a = 8 then 16 else 0

/-- Counterexample to C3: the claim says that after each completed
instruction `sp ∈ [stack_start - stack_size, stack_start - 4]` or a
fatal fault was raised.  On a freshly `set_stack`-ed CPU (stack
`[0xF000, 0x10000)`, `sp = 0xFFFC`) whose program is a single `LSF`
naming `sp`'s register offset 44 as its destination, one completed
step leaves `sp = 0xFFFC0000`, far outside the range, and no fault is
raised. -/
theorem claim_C3_counterexample :
    (((CPU.new progC3 0).set_stack 0x10000 0x1000).bind CPU.step).map
        (fun c1 => c1.get_reg RSP) = some (some 4294705152) ∧
    ¬(0x10000 - 0x1000 ≤ 4294705152 ∧ 4294705152 ≤ 0x10000 - 4) := by
  exact ⟨by rfl, by decide⟩

/-- C3 (amended): the range invariant on `sp` is not preserved by
arbitrary instructions (an instruction whose fetched register
destination operand is `sp`'s offset 44 overwrites `sp` with no fault,
see the counterexample); it IS preserved by the stack primitives
themselves: on a sane stack configuration, every completed `push` and
every completed `pop` keeps `sp` inside
`[stack_start - stack_size, stack_start - 4]` and keeps
`stack_start - sp` divisible by 4. -/
theorem claim_C3 (c : CPU) (v : Nat) (hsize : c.registers.size = 52)
    (hstack : c.stack_set = true)
    (hlow4 : 4 ≤ c.stack_start - c.stack_size)
    (hss : c.stack_size ≤ c.stack_start)
    (hstart : c.stack_start < W32)
    (hlo : c.stack_start - c.stack_size ≤ beGet c.registers.data RSP)
    (hhi : beGet c.registers.data RSP ≤ c.stack_start - 4)
    (hal : (c.stack_start - beGet c.registers.data RSP) % 4 = 0) :
    (∀ c2, c.push v = some c2 →
      c.stack_start - c.stack_size ≤ beGet c2.registers.data RSP ∧
      beGet c2.registers.data RSP ≤ c.stack_start - 4 ∧
      (c.stack_start - beGet c2.registers.data RSP) % 4 = 0) ∧
    (∀ w c2, c.pop = some (w, c2) →
      c.stack_start - c.stack_size ≤ beGet c2.registers.data RSP ∧
      beGet c2.registers.data RSP ≤ c.stack_start - 4 ∧
      (c.stack_start - beGet c2.registers.data RSP) % 4 = 0) := by
  have hW : beGet c.registers.data RSP < W32 := beGet_lt _ _
  have hW32 : W32 = 4294967296 := rfl
  constructor
  · intro c2 h
    rw [push_eq c v hsize,
      wsub_small (beGet c.registers.data RSP) 4 (by omega) hW,
      wsub_small c.stack_start c.stack_size hss hstart] at h
    split at h
    · cases h
    · rename_i hcond
      injection h with h
      rw [← h]
      simp only
      rw [beGet_beSet_same, Nat.mod_eq_of_lt (by omega)]
      omega
  · intro w c2 h
    rw [pop_eq c hsize, wrap, Nat.mod_eq_of_lt (by omega),
      wsub_small c.stack_start 3 (by omega) hstart] at h
    split at h
    · cases h
    · rename_i hcond
      injection h with h
      cases h
      simp only
      rw [beGet_beSet_same, Nat.mod_eq_of_lt (by omega)]
      omega

/-- Witness for the amended C3 on the concrete state `zeroCPU`
(`stack_start = 0x10000`, `stack_size = 0x1000`, `sp = 0xFFFC`). -/
theorem claim_C3_witness :
    (∀ c2, zeroCPU.push 7 = some c2 →
      zeroCPU.stack_start - zeroCPU.stack_size ≤ beGet c2.registers.data RSP ∧
      beGet c2.registers.data RSP ≤ zeroCPU.stack_start - 4 ∧
      (zeroCPU.stack_start - beGet c2.registers.data RSP) % 4 = 0) ∧
    (∀ w c2, zeroCPU.pop = some (w, c2) →
      zeroCPU.stack_start - zeroCPU.stack_size ≤ beGet c2.registers.data RSP ∧
      beGet c2.registers.data RSP ≤ zeroCPU.stack_start - 4 ∧
      (zeroCPU.stack_start - beGet c2.registers.data RSP) % 4 = 0) :=
  claim_C3 zeroCPU 7 rfl rfl (by decide) (by decide) (by decide) (by decide)
    (by decide) (by decide)

/-- The program used by the C1 counterexample: `CALL 100` at address 0
(opcode 0x02, big-endian word operand 100) and `RET` (0x04) at
address 100. -/
def progC1 : Nat → Nat :=
  fun a => if a = 0 then 0x02 else if a = 4 then 100 else
    if a = 100 then 0x04 else 0

/-- Counterexample to C1: the claim says CALL to an immediately
returning target leaves `fp` unchanged and restores `sp` to its value
before the CALL.  Concretely: fresh CPU, stack `[0xF000, 0x10000)`, a
zero arg_count word pushed (so `sp = 0xFFF8`, `fp = 0xFFFC`,
`stackframe_size = 4`, and the word on top of the stack is 0), program
`CALL 100; ... 100: RET`.  After the two steps `sp = 0xFFFC ≠ 0xFFF8`
(the arg-count slot is consumed) and `fp = 0xFFD4 ≠ 0xFFFC` (`fp` is
rebuilt as `fp_at_ret + stackframe_size`, where `stackframe_size` has
already been decremented by the ten pops that follow its own
restoration, leaving it 40 short). -/
theorem claim_C1_counterexample :
    ((((CPU.new progC1 0).set_stack 0x10000 0x1000).bind
        (fun c => c.push 0)).map
        (fun c0 => (c0.get_reg RSP, c0.get_reg RFP))) =
      some (some 0xFFF8, some 0xFFFC) ∧
    (((((CPU.new progC1 0).set_stack 0x10000 0x1000).bind
        (fun c => c.push 0)).bind
        (fun c0 => c0.step.bind CPU.step)).map
        (fun c2 => (c2.get_reg RSP, c2.get_reg RFP, c2.get_reg RPC))) =
      some (some 0xFFFC, some 0xFFD4, some 5) ∧
    ¬((0xFFFC : Nat) = 0xFFF8) ∧ ¬((0xFFD4 : Nat) = 0xFFFC) := by
  refine ⟨by rfl, by rfl, by decide, by decide⟩

/-- Characterization of `CPU::push_state` on a well-formed state with
room on the stack: `r1..r8`, then `pc`, then `stackframe_size + 4`
(which by then includes the nine earlier pushes, hence the stored
value `stackframe_size + 40`) are pushed at descending addresses,
`sp` drops by 40, `fp` is set to the new `sp`, and `stackframe_size`
is reset to 0. -/
theorem push_state_eq (c : CPU) (hsize : c.registers.size = 52)
    (hstart : c.stack_start < W32) (hss : c.stack_size ≤ c.stack_start)
    (hsp40 : 40 ≤ beGet c.registers.data RSP)
    (hlow : c.stack_start - c.stack_size + 40 ≤ beGet c.registers.data RSP)
    (hsfs : c.stackframe_size + 44 < W32) :
    c.push_state = some { c with
      mem := beSet (beSet (beSet (beSet (beSet (beSet (beSet (beSet (beSet (beSet (c.mem)
        (beGet c.registers.data RSP) (beGet c.registers.data 0))
        (beGet c.registers.data RSP - 4) (beGet c.registers.data 4))
        (beGet c.registers.data RSP - 8) (beGet c.registers.data 8))
        (beGet c.registers.data RSP - 12) (beGet c.registers.data 12))
        (beGet c.registers.data RSP - 16) (beGet c.registers.data 16))
        (beGet c.registers.data RSP - 20) (beGet c.registers.data 20))
        (beGet c.registers.data RSP - 24) (beGet c.registers.data 24))
        (beGet c.registers.data RSP - 28) (beGet c.registers.data 28))
        (beGet c.registers.data RSP - 32) (beGet c.registers.data RPC))
        (beGet c.registers.data RSP - 36) (c.stackframe_size + 40)
      registers := ⟨52, beSet (beSet c.registers.data RSP
        (beGet c.registers.data RSP - 40)) RFP (beGet c.registers.data RSP - 40)⟩
      stackframe_size := 0 } := by
  have hW : beGet c.registers.data RSP < W32 := beGet_lt _ _
  unfold CPU.push_state
  simp only [CPU.pushRegs, Nat.reduceMul]
  rw [get_reg_some c 0 (by rw [hsize]; omega)]
  simp only [Option.pure_def, Option.bind_eq_bind, Option.some_bind]
  rw [push_eq c _ hsize,
    wsub_small (beGet c.registers.data RSP) 4 (by omega) hW,
    wsub_small c.stack_start c.stack_size hss hstart,
    if_neg (by omega),
    wadd_small c.stackframe_size 4 (by unfold W32 at hsfs ⊢; omega)]
  simp only [Option.pure_def, Option.bind_eq_bind, Option.some_bind]
  rw [get_reg_some _ 4 (show 4 + 3 < 52 by omega)]
  simp only [Option.pure_def, Option.bind_eq_bind, Option.some_bind]
  rw [beGet_beSet_out _ _ _ _ (by unfold RSP; omega)]
  rw [push_eq _ _ rfl]
  rw [beGet_beSet_same,
    Nat.mod_eq_of_lt (show beGet c.registers.data RSP - 4 < W32 by omega),
    wsub_small (beGet c.registers.data RSP - 4) 4 (by omega) (by omega),
    (by omega : beGet c.registers.data RSP - 4 - 4 = beGet c.registers.data RSP - 8),
    wsub_small c.stack_start c.stack_size hss hstart,
    if_neg (by omega),
    beSet_beSet_same,
    wadd_small (c.stackframe_size + 4) 4 (by unfold W32 at hsfs ⊢; omega),
    (by omega : c.stackframe_size + 4 + 4 = c.stackframe_size + 8)]
  simp only [Option.pure_def, Option.bind_eq_bind, Option.some_bind]
  rw [get_reg_some _ 8 (show 8 + 3 < 52 by omega)]
  simp only [Option.pure_def, Option.bind_eq_bind, Option.some_bind]
  rw [beGet_beSet_out _ _ _ _ (by unfold RSP; omega)]
  rw [push_eq _ _ rfl]
  rw [beGet_beSet_same,
    Nat.mod_eq_of_lt (show beGet c.registers.data RSP - 8 < W32 by omega),
    wsub_small (beGet c.registers.data RSP - 8) 4 (by omega) (by omega),
    (by omega : beGet c.registers.data RSP - 8 - 4 = beGet c.registers.data RSP - 12),
    wsub_small c.stack_start c.stack_size hss hstart,
    if_neg (by omega),
    beSet_beSet_same,
    wadd_small (c.stackframe_size + 8) 4 (by unfold W32 at hsfs ⊢; omega),
    (by omega : c.stackframe_size + 8 + 4 = c.stackframe_size + 12)]
  simp only [Option.pure_def, Option.bind_eq_bind, Option.some_bind]
  rw [get_reg_some _ 12 (show 12 + 3 < 52 by omega)]
  simp only [Option.pure_def, Option.bind_eq_bind, Option.some_bind]
  rw [beGet_beSet_out _ _ _ _ (by unfold RSP; omega)]
  rw [push_eq _ _ rfl]
  rw [beGet_beSet_same,
    Nat.mod_eq_of_lt (show beGet c.registers.data RSP - 12 < W32 by omega),
    wsub_small (beGet c.registers.data RSP - 12) 4 (by omega) (by omega),
    (by omega : beGet c.registers.data RSP - 12 - 4 = beGet c.registers.data RSP - 16),
    wsub_small c.stack_start c.stack_size hss hstart,
    if_neg (by omega),
    beSet_beSet_same,
    wadd_small (c.stackframe_size + 12) 4 (by unfold W32 at hsfs ⊢; omega),
    (by omega : c.stackframe_size + 12 + 4 = c.stackframe_size + 16)]
  simp only [Option.pure_def, Option.bind_eq_bind, Option.some_bind]
  rw [get_reg_some _ 16 (show 16 + 3 < 52 by omega)]
  simp only [Option.pure_def, Option.bind_eq_bind, Option.some_bind]
  rw [beGet_beSet_out _ _ _ _ (by unfold RSP; omega)]
  rw [push_eq _ _ rfl]
  rw [beGet_beSet_same,
    Nat.mod_eq_of_lt (show beGet c.registers.data RSP - 16 < W32 by omega),
    wsub_small (beGet c.registers.data RSP - 16) 4 (by omega) (by omega),
    (by omega : beGet c.registers.data RSP - 16 - 4 = beGet c.registers.data RSP - 20),
    wsub_small c.stack_start c.stack_size hss hstart,
    if_neg (by omega),
    beSet_beSet_same,
    wadd_small (c.stackframe_size + 16) 4 (by unfold W32 at hsfs ⊢; omega),
    (by omega : c.stackframe_size + 16 + 4 = c.stackframe_size + 20)]
  simp only [Option.pure_def, Option.bind_eq_bind, Option.some_bind]
  rw [get_reg_some _ 20 (show 20 + 3 < 52 by omega)]
  simp only [Option.pure_def, Option.bind_eq_bind, Option.some_bind]
  rw [beGet_beSet_out _ _ _ _ (by unfold RSP; omega)]
  rw [push_eq _ _ rfl]
  rw [beGet_beSet_same,
    Nat.mod_eq_of_lt (show beGet c.registers.data RSP - 20 < W32 by omega),
    wsub_small (beGet c.registers.data RSP - 20) 4 (by omega) (by omega),
    (by omega : beGet c.registers.data RSP - 20 - 4 = beGet c.registers.data RSP - 24),
    wsub_small c.stack_start c.stack_size hss hstart,
    if_neg (by omega),
    beSet_beSet_same,
    wadd_small (c.stackframe_size + 20) 4 (by unfold W32 at hsfs ⊢; omega),
    (by omega : c.stackframe_size + 20 + 4 = c.stackframe_size + 24)]
  simp only [Option.pure_def, Option.bind_eq_bind, Option.some_bind]
  rw [get_reg_some _ 24 (show 24 + 3 < 52 by omega)]
  simp only [Option.pure_def, Option.bind_eq_bind, Option.some_bind]
  rw [beGet_beSet_out _ _ _ _ (by unfold RSP; omega)]
  rw [push_eq _ _ rfl]
  rw [beGet_beSet_same,
    Nat.mod_eq_of_lt (show beGet c.registers.data RSP - 24 < W32 by omega),
    wsub_small (beGet c.registers.data RSP - 24) 4 (by omega) (by omega),
    (by omega : beGet c.registers.data RSP - 24 - 4 = beGet c.registers.data RSP - 28),
    wsub_small c.stack_start c.stack_size hss hstart,
    if_neg (by omega),
    beSet_beSet_same,
    wadd_small (c.stackframe_size + 24) 4 (by unfold W32 at hsfs ⊢; omega),
    (by omega : c.stackframe_size + 24 + 4 = c.stackframe_size + 28)]
  simp only [Option.pure_def, Option.bind_eq_bind, Option.some_bind]
  rw [get_reg_some _ 28 (show 28 + 3 < 52 by omega)]
  simp only [Option.pure_def, Option.bind_eq_bind, Option.some_bind]
  rw [beGet_beSet_out _ _ _ _ (by unfold RSP; omega)]
  rw [push_eq _ _ rfl]
  rw [beGet_beSet_same,
    Nat.mod_eq_of_lt (show beGet c.registers.data RSP - 28 < W32 by omega),
    wsub_small (beGet c.registers.data RSP - 28) 4 (by omega) (by omega),
    (by omega : beGet c.registers.data RSP - 28 - 4 = beGet c.registers.data RSP - 32),
    wsub_small c.stack_start c.stack_size hss hstart,
    if_neg (by omega),
    beSet_beSet_same,
    wadd_small (c.stackframe_size + 28) 4 (by unfold W32 at hsfs ⊢; omega),
    (by omega : c.stackframe_size + 28 + 4 = c.stackframe_size + 32)]
  simp only [Option.pure_def, Option.bind_eq_bind, Option.some_bind]
  rw [get_reg_some _ RPC (show RPC + 3 < 52 by unfold RPC; omega)]
  simp only [Option.pure_def, Option.bind_eq_bind, Option.some_bind]
  rw [beGet_beSet_out _ _ _ _ (by unfold RSP RPC; omega)]
  rw [push_eq _ _ rfl]
  rw [beGet_beSet_same,
    Nat.mod_eq_of_lt (show beGet c.registers.data RSP - 32 < W32 by omega),
    wsub_small (beGet c.registers.data RSP - 32) 4 (by omega) (by omega),
    (by omega : beGet c.registers.data RSP - 32 - 4 = beGet c.registers.data RSP - 36),
    wsub_small c.stack_start c.stack_size hss hstart,
    if_neg (by omega),
    beSet_beSet_same,
    wadd_small (c.stackframe_size + 32) 4 (by unfold W32 at hsfs ⊢; omega),
    (by omega : c.stackframe_size + 32 + 4 = c.stackframe_size + 36)]
  simp only [Option.pure_def, Option.bind_eq_bind, Option.some_bind]
  rw [wadd_small (c.stackframe_size + 36) 4 (by unfold W32 at hsfs ⊢; omega),
    (by omega : c.stackframe_size + 36 + 4 = c.stackframe_size + 40)]
  rw [push_eq _ _ rfl]
  try simp only [Option.pure_def, Option.bind_eq_bind, Option.some_bind]
  rw [beGet_beSet_same,
    Nat.mod_eq_of_lt (show beGet c.registers.data RSP - 36 < W32 by omega),
    wsub_small (beGet c.registers.data RSP - 36) 4 (by omega) (by omega),
    (by omega : beGet c.registers.data RSP - 36 - 4 = beGet c.registers.data RSP - 40),
    wsub_small c.stack_start c.stack_size hss hstart,
    if_neg (by omega),
    beSet_beSet_same,
    wadd_small (c.stackframe_size + 36) 4 (by unfold W32 at hsfs ⊢; omega),
    (by omega : c.stackframe_size + 36 + 4 = c.stackframe_size + 40)]
  simp only [Option.pure_def, Option.bind_eq_bind, Option.some_bind]
  rw [get_reg_some _ RSP (show RSP + 3 < 52 by unfold RSP; omega)]
  simp only [Option.pure_def, Option.bind_eq_bind, Option.some_bind]
  rw [beGet_beSet_same,
    Nat.mod_eq_of_lt (show beGet c.registers.data RSP - 40 < W32 by omega)]
  rw [set_reg_some _ RFP _ (show RFP + 3 < 52 by unfold RFP; omega)]
  simp only [Option.pure_def, Option.bind_eq_bind, Option.some_bind]

/-- Characterization of `CPU::pop_state` on a well-formed state whose
frame pointer leaves room for the eleven pops, whose saved
`stackframe_size` word (at `fp + 4`) is at least 40, and whose saved
argument count (at `fp + 44`) is zero: `sp` walks up from `fp` to
`fp + 44`, `pc` is restored from `fp + 8`, `r8..r1` are restored from
`fp + 12 .. fp + 40`, `stackframe_size` ends at the saved value MINUS
40 (each pop after its restoration decrements it again), and `fp` is
rebuilt as `fp + (saved - 40)` -- not the caller's original `fp`. -/
theorem pop_state_eq (c : CPU) (hsize : c.registers.size = 52)
    (hstart : c.stack_start < W32)
    (hfp : beGet c.registers.data RFP + 47 ≤ c.stack_start)
    (hsv : 40 ≤ beGet c.mem (beGet c.registers.data RFP + 4))
    (harg : beGet c.mem (beGet c.registers.data RFP + 44) = 0)
    (hwadd : beGet c.registers.data RFP + (beGet c.mem (beGet c.registers.data RFP + 4) - 40) < W32) :
    c.pop_state = some { c with
      registers := ⟨52, beSet (beSet (beSet (beSet (beSet (beSet (beSet (beSet (beSet (beSet (beSet (beSet (beSet (beSet (beSet (beSet (beSet (beSet (beSet (beSet (c.registers.data) RSP
        (beGet c.registers.data RFP + 8)) RPC
        (beGet c.mem (beGet c.registers.data RFP + 8))) RSP
        (beGet c.registers.data RFP + 12)) 28
        (beGet c.mem (beGet c.registers.data RFP + 12))) RSP
        (beGet c.registers.data RFP + 16)) 24
        (beGet c.mem (beGet c.registers.data RFP + 16))) RSP
        (beGet c.registers.data RFP + 20)) 20
        (beGet c.mem (beGet c.registers.data RFP + 20))) RSP
        (beGet c.registers.data RFP + 24)) 16
        (beGet c.mem (beGet c.registers.data RFP + 24))) RSP
        (beGet c.registers.data RFP + 28)) 12
        (beGet c.mem (beGet c.registers.data RFP + 28))) RSP
        (beGet c.registers.data RFP + 32)) 8
        (beGet c.mem (beGet c.registers.data RFP + 32))) RSP
        (beGet c.registers.data RFP + 36)) 4
        (beGet c.mem (beGet c.registers.data RFP + 36))) RSP
        (beGet c.registers.data RFP + 40)) 0
        (beGet c.mem (beGet c.registers.data RFP + 40))) RSP
        (beGet c.registers.data RFP + 44)) RFP
        (beGet c.registers.data RFP + (beGet c.mem (beGet c.registers.data RFP + 4) - 40))⟩
      stackframe_size := beGet c.mem (beGet c.registers.data RFP + 4) - 40 } := by
  have hFW : beGet c.registers.data RFP < W32 := beGet_lt _ _
  have hSW : beGet c.mem (beGet c.registers.data RFP + 4) < W32 := beGet_lt _ _
  unfold CPU.pop_state
  rw [get_reg_some c RFP (by rw [hsize]; unfold RFP; omega)]
  simp only [Option.pure_def, Option.bind_eq_bind, Option.some_bind]
  rw [set_reg_some c RSP _ (by rw [hsize]; unfold RSP; omega), hsize]
  simp only [Option.pure_def, Option.bind_eq_bind, Option.some_bind]
  rw [pop_eq _ rfl]
  try simp only [Option.pure_def, Option.bind_eq_bind, Option.some_bind]
  rw [beGet_beSet_same, Nat.mod_eq_of_lt hFW,
    wrap_small (beGet c.registers.data RFP + 4) (by omega),
    wsub_small c.stack_start 3 (by omega) hstart,
    if_neg (by omega),
    beSet_beSet_same]
  simp only [Option.pure_def, Option.bind_eq_bind, Option.some_bind]
  rw [pop_eq _ rfl]
  try simp only [Option.pure_def, Option.bind_eq_bind, Option.some_bind]
  rw [beGet_beSet_same,
    Nat.mod_eq_of_lt (show beGet c.registers.data RFP + 4 < W32 by omega),
    wrap_small (beGet c.registers.data RFP + 4 + 4) (by omega),
    (by omega : beGet c.registers.data RFP + 4 + 4 = beGet c.registers.data RFP + 8),
    wsub_small c.stack_start 3 (by omega) hstart,
    if_neg (by omega),
    beSet_beSet_same,
    wsub_small (beGet c.mem (beGet c.registers.data RFP + 4)) 4 (by omega) hSW]
  simp only [Option.pure_def, Option.bind_eq_bind, Option.some_bind]
  rw [set_reg_some _ RPC _ (show RPC + 3 < 52 by unfold RPC; omega)]
  simp only [Option.pure_def, Option.bind_eq_bind, Option.some_bind]
  simp only [CPU.popRegsRev, Nat.reduceMul, Option.pure_def, Option.bind_eq_bind, Option.some_bind]
  rw [pop_eq _ rfl]
  try simp only [Option.pure_def, Option.bind_eq_bind, Option.some_bind]
  rw [beGet_beSet_out _ _ _ _ (by unfold RSP RPC; omega),
    beGet_beSet_same,
    Nat.mod_eq_of_lt (show beGet c.registers.data RFP + 8 < W32 by omega),
    wrap_small (beGet c.registers.data RFP + 8 + 4) (by omega),
    (by omega : beGet c.registers.data RFP + 8 + 4 = beGet c.registers.data RFP + 12),
    wsub_small c.stack_start 3 (by omega) hstart,
    if_neg (by omega),
    wsub_small (beGet c.mem (beGet c.registers.data RFP + 4) - 4) 4 (by omega) (by omega),
    (by omega : beGet c.mem (beGet c.registers.data RFP + 4) - 4 - 4 = beGet c.mem (beGet c.registers.data RFP + 4) - 8)]
  simp only [Option.pure_def, Option.bind_eq_bind, Option.some_bind]
  rw [set_reg_some _ 28 _ (show 28 + 3 < 52 by omega)]
  simp only [Option.pure_def, Option.bind_eq_bind, Option.some_bind]
  rw [pop_eq _ rfl]
  try simp only [Option.pure_def, Option.bind_eq_bind, Option.some_bind]
  rw [beGet_beSet_out _ _ _ _ (by unfold RSP; omega),
    beGet_beSet_same,
    Nat.mod_eq_of_lt (show beGet c.registers.data RFP + 12 < W32 by omega),
    wrap_small (beGet c.registers.data RFP + 12 + 4) (by omega),
    (by omega : beGet c.registers.data RFP + 12 + 4 = beGet c.registers.data RFP + 16),
    wsub_small c.stack_start 3 (by omega) hstart,
    if_neg (by omega),
    wsub_small (beGet c.mem (beGet c.registers.data RFP + 4) - 8) 4 (by omega) (by omega),
    (by omega : beGet c.mem (beGet c.registers.data RFP + 4) - 8 - 4 = beGet c.mem (beGet c.registers.data RFP + 4) - 12)]
  simp only [Option.pure_def, Option.bind_eq_bind, Option.some_bind]
  rw [set_reg_some _ 24 _ (show 24 + 3 < 52 by omega)]
  simp only [Option.pure_def, Option.bind_eq_bind, Option.some_bind]
  rw [pop_eq _ rfl]
  try simp only [Option.pure_def, Option.bind_eq_bind, Option.some_bind]
  rw [beGet_beSet_out _ _ _ _ (by unfold RSP; omega),
    beGet_beSet_same,
    Nat.mod_eq_of_lt (show beGet c.registers.data RFP + 16 < W32 by omega),
    wrap_small (beGet c.registers.data RFP + 16 + 4) (by omega),
    (by omega : beGet c.registers.data RFP + 16 + 4 = beGet c.registers.data RFP + 20),
    wsub_small c.stack_start 3 (by omega) hstart,
    if_neg (by omega),
    wsub_small (beGet c.mem (beGet c.registers.data RFP + 4) - 12) 4 (by omega) (by omega),
    (by omega : beGet c.mem (beGet c.registers.data RFP + 4) - 12 - 4 = beGet c.mem (beGet c.registers.data RFP + 4) - 16)]
  simp only [Option.pure_def, Option.bind_eq_bind, Option.some_bind]
  rw [set_reg_some _ 20 _ (show 20 + 3 < 52 by omega)]
  simp only [Option.pure_def, Option.bind_eq_bind, Option.some_bind]
  rw [pop_eq _ rfl]
  try simp only [Option.pure_def, Option.bind_eq_bind, Option.some_bind]
  rw [beGet_beSet_out _ _ _ _ (by unfold RSP; omega),
    beGet_beSet_same,
    Nat.mod_eq_of_lt (show beGet c.registers.data RFP + 20 < W32 by omega),
    wrap_small (beGet c.registers.data RFP + 20 + 4) (by omega),
    (by omega : beGet c.registers.data RFP + 20 + 4 = beGet c.registers.data RFP + 24),
    wsub_small c.stack_start 3 (by omega) hstart,
    if_neg (by omega),
    wsub_small (beGet c.mem (beGet c.registers.data RFP + 4) - 16) 4 (by omega) (by omega),
    (by omega : beGet c.mem (beGet c.registers.data RFP + 4) - 16 - 4 = beGet c.mem (beGet c.registers.data RFP + 4) - 20)]
  simp only [Option.pure_def, Option.bind_eq_bind, Option.some_bind]
  rw [set_reg_some _ 16 _ (show 16 + 3 < 52 by omega)]
  simp only [Option.pure_def, Option.bind_eq_bind, Option.some_bind]
  rw [pop_eq _ rfl]
  try simp only [Option.pure_def, Option.bind_eq_bind, Option.some_bind]
  rw [beGet_beSet_out _ _ _ _ (by unfold RSP; omega),
    beGet_beSet_same,
    Nat.mod_eq_of_lt (show beGet c.registers.data RFP + 24 < W32 by omega),
    wrap_small (beGet c.registers.data RFP + 24 + 4) (by omega),
    (by omega : beGet c.registers.data RFP + 24 + 4 = beGet c.registers.data RFP + 28),
    wsub_small c.stack_start 3 (by omega) hstart,
    if_neg (by omega),
    wsub_small (beGet c.mem (beGet c.registers.data RFP + 4) - 20) 4 (by omega) (by omega),
    (by omega : beGet c.mem (beGet c.registers.data RFP + 4) - 20 - 4 = beGet c.mem (beGet c.registers.data RFP + 4) - 24)]
  simp only [Option.pure_def, Option.bind_eq_bind, Option.some_bind]
  rw [set_reg_some _ 12 _ (show 12 + 3 < 52 by omega)]
  simp only [Option.pure_def, Option.bind_eq_bind, Option.some_bind]
  rw [pop_eq _ rfl]
  try simp only [Option.pure_def, Option.bind_eq_bind, Option.some_bind]
  rw [beGet_beSet_out _ _ _ _ (by unfold RSP; omega),
    beGet_beSet_same,
    Nat.mod_eq_of_lt (show beGet c.registers.data RFP + 28 < W32 by omega),
    wrap_small (beGet c.registers.data RFP + 28 + 4) (by omega),
    (by omega : beGet c.registers.data RFP + 28 + 4 = beGet c.registers.data RFP + 32),
    wsub_small c.stack_start 3 (by omega) hstart,
    if_neg (by omega),
    wsub_small (beGet c.mem (beGet c.registers.data RFP + 4) - 24) 4 (by omega) (by omega),
    (by omega : beGet c.mem (beGet c.registers.data RFP + 4) - 24 - 4 = beGet c.mem (beGet c.registers.data RFP + 4) - 28)]
  simp only [Option.pure_def, Option.bind_eq_bind, Option.some_bind]
  rw [set_reg_some _ 8 _ (show 8 + 3 < 52 by omega)]
  simp only [Option.pure_def, Option.bind_eq_bind, Option.some_bind]
  rw [pop_eq _ rfl]
  try simp only [Option.pure_def, Option.bind_eq_bind, Option.some_bind]
  rw [beGet_beSet_out _ _ _ _ (by unfold RSP; omega),
    beGet_beSet_same,
    Nat.mod_eq_of_lt (show beGet c.registers.data RFP + 32 < W32 by omega),
    wrap_small (beGet c.registers.data RFP + 32 + 4) (by omega),
    (by omega : beGet c.registers.data RFP + 32 + 4 = beGet c.registers.data RFP + 36),
    wsub_small c.stack_start 3 (by omega) hstart,
    if_neg (by omega),
    wsub_small (beGet c.mem (beGet c.registers.data RFP + 4) - 28) 4 (by omega) (by omega),
    (by omega : beGet c.mem (beGet c.registers.data RFP + 4) - 28 - 4 = beGet c.mem (beGet c.registers.data RFP + 4) - 32)]
  simp only [Option.pure_def, Option.bind_eq_bind, Option.some_bind]
  rw [set_reg_some _ 4 _ (show 4 + 3 < 52 by omega)]
  simp only [Option.pure_def, Option.bind_eq_bind, Option.some_bind]
  rw [pop_eq _ rfl]
  try simp only [Option.pure_def, Option.bind_eq_bind, Option.some_bind]
  rw [beGet_beSet_out _ _ _ _ (by unfold RSP; omega),
    beGet_beSet_same,
    Nat.mod_eq_of_lt (show beGet c.registers.data RFP + 36 < W32 by omega),
    wrap_small (beGet c.registers.data RFP + 36 + 4) (by omega),
    (by omega : beGet c.registers.data RFP + 36 + 4 = beGet c.registers.data RFP + 40),
    wsub_small c.stack_start 3 (by omega) hstart,
    if_neg (by omega),
    wsub_small (beGet c.mem (beGet c.registers.data RFP + 4) - 32) 4 (by omega) (by omega),
    (by omega : beGet c.mem (beGet c.registers.data RFP + 4) - 32 - 4 = beGet c.mem (beGet c.registers.data RFP + 4) - 36)]
  simp only [Option.pure_def, Option.bind_eq_bind, Option.some_bind]
  rw [set_reg_some _ 0 _ (show 0 + 3 < 52 by omega)]
  simp only [Option.pure_def, Option.bind_eq_bind, Option.some_bind]
  rw [pop_eq _ rfl]
  try simp only [Option.pure_def, Option.bind_eq_bind, Option.some_bind]
  rw [beGet_beSet_out _ _ _ _ (by unfold RSP; omega),
    beGet_beSet_same,
    Nat.mod_eq_of_lt (show beGet c.registers.data RFP + 40 < W32 by omega),
    wrap_small (beGet c.registers.data RFP + 40 + 4) (by omega),
    (by omega : beGet c.registers.data RFP + 40 + 4 = beGet c.registers.data RFP + 44),
    wsub_small c.stack_start 3 (by omega) hstart,
    if_neg (by omega),
    wsub_small (beGet c.mem (beGet c.registers.data RFP + 4) - 36) 4 (by omega) (by omega),
    (by omega : beGet c.mem (beGet c.registers.data RFP + 4) - 36 - 4 = beGet c.mem (beGet c.registers.data RFP + 4) - 40)]
  simp only [Option.pure_def, Option.bind_eq_bind, Option.some_bind]
  rw [harg]
  simp only [CPU.popN, Option.pure_def, Option.bind_eq_bind, Option.some_bind]
  rw [wadd_small (beGet c.registers.data RFP) (beGet c.mem (beGet c.registers.data RFP + 4) - 40) hwadd]
  rw [set_reg_some _ RFP _ (show RFP + 3 < 52 by unfold RFP; omega)]

/-- One evaluation step written as a plain function of the fetched
opcode byte: `step` is `fetch_byte` (pc advances by one) followed by
`execute`. -/
theorem step_eq (c : CPU) (hsize : c.registers.size = 52) :
    c.step = CPU.execute { c with registers := ⟨52, beSet c.registers.data RPC
      (wrap (beGet c.registers.data RPC + 1))⟩ }
      (byteAt c.mem (beGet c.registers.data RPC)) := by
  unfold CPU.step
  rw [fetch_byte_eq c hsize]

/-- Opcode `0x02` dispatches to the `CALL` handler. -/
theorem execute_call_eq (c : CPU) : c.execute 0x02 = CALL c := rfl

/-- Opcode `0x04` dispatches to the `RET` handler, which is `pop_state`. -/
theorem execute_ret_eq (c : CPU) : c.execute 0x04 = c.pop_state := rfl

/-- A big-endian word read is already reduced modulo `2^32`. -/
theorem beGet_mod (m : Nat → Nat) (a : Nat) : beGet m a % W32 = beGet m a :=
  Nat.mod_eq_of_lt (beGet_lt m a)

set_option maxHeartbeats 8000000 in
set_option maxRecDepth 16000 in
/-- C1 (corrected): from any well-formed state with the stack set, room
for the 40-byte frame, the word 0 (an arg count) on top of the stack at
`sp + 4`, a `CALL T` encoded at `pc` and `RET` at `T` (with `T` outside
the pushed frame), executing the CALL and then the RET restores
`r1..r8` and `stackframe_size` and leaves `pc = pc₀ + 5` (just past the
CALL encoding); but `sp` ends at `sp₀ + 4` -- the arg-count slot is
consumed, so `sp` is NOT restored -- and `fp` ends at
`sp₀ - 40 + stackframe_size₀`, which differs from the original `fp` in
general. -/
theorem claim_C1 (c : CPU) (T : Nat)
    (hsize : c.registers.size = 52)
    (hset : c.stack_set = true)
    (hstart : c.stack_start < W32)
    (hss : c.stack_size ≤ c.stack_start)
    (hsp40 : 40 ≤ beGet c.registers.data RSP)
    (hlow : c.stack_start - c.stack_size + 40 ≤ beGet c.registers.data RSP)
    (hsp7 : beGet c.registers.data RSP + 7 ≤ c.stack_start)
    (hsfs : c.stackframe_size + 44 < W32)
    (hfadd : beGet c.registers.data RSP + c.stackframe_size < W32)
    (hP5 : beGet c.registers.data RPC + 5 < W32)
    (hop : byteAt c.mem (beGet c.registers.data RPC) = 0x02)
    (htgt : beGet c.mem (beGet c.registers.data RPC + 1) = T)
    (hret : byteAt c.mem T = 0x04)
    (hTdis : T < beGet c.registers.data RSP - 36 ∨ beGet c.registers.data RSP + 4 ≤ T)
    (harg0 : beGet c.mem (beGet c.registers.data RSP + 4) = 0) :
    (c.step.bind CPU.step).map (fun c2 =>
        (c2.get_reg 0, c2.get_reg 4, c2.get_reg 8, c2.get_reg 12,
         c2.get_reg 16, c2.get_reg 20, c2.get_reg 24, c2.get_reg 28,
         c2.get_reg RPC, c2.get_reg RSP, c2.get_reg RFP,
         c2.stackframe_size)) =
      some (c.get_reg 0, c.get_reg 4, c.get_reg 8, c.get_reg 12,
         c.get_reg 16, c.get_reg 20, c.get_reg 24, c.get_reg 28,
         some (beGet c.registers.data RPC + 5), some (beGet c.registers.data RSP + 4), some (beGet c.registers.data RSP - 40 + c.stackframe_size),
         c.stackframe_size) := by
  have hTW : T < W32 := htgt ▸ beGet_lt c.mem (beGet c.registers.data RPC + 1)
  have hSltW : beGet c.registers.data RSP < W32 := beGet_lt _ _
  rw [step_eq c hsize, hop, execute_call_eq,
    wrap_small (beGet c.registers.data RPC + 1) (by omega)]
  unfold CALL
  rw [fetch_word_eq _ rfl]
  simp only [Option.pure_def, Option.bind_eq_bind, Option.some_bind]
  rw [beGet_beSet_same _ RPC _,
    Nat.mod_eq_of_lt (show beGet c.registers.data RPC + 1 < W32 by omega),
    htgt,
    wrap_small (beGet c.registers.data RPC + 1 + 4) (by omega),
    (by omega : beGet c.registers.data RPC + 1 + 4 = beGet c.registers.data RPC + 5),
    beSet_beSet_same]
  try simp only [Option.pure_def, Option.bind_eq_bind, Option.some_bind]
  rw [push_state_eq _ rfl (by exact hstart) (by exact hss)
    (by
      show 40 ≤ beGet (beSet c.registers.data RPC (beGet c.registers.data RPC + 5)) RSP
      rw [beGet_beSet_out _ _ _ RSP (by unfold RPC RSP; omega)]; exact hsp40)
    (by
      show c.stack_start - c.stack_size + 40 ≤
        beGet (beSet c.registers.data RPC (beGet c.registers.data RPC + 5)) RSP
      rw [beGet_beSet_out _ _ _ RSP (by unfold RPC RSP; omega)]; exact hlow)
    (by exact hsfs)]
  rw [beGet_beSet_out _ _ _ RSP (by unfold RPC RSP; omega)]
  rw [beGet_beSet_out _ _ _ 0 (by unfold RPC; omega),
    beGet_beSet_out _ _ _ 4 (by unfold RPC; omega),
    beGet_beSet_out _ _ _ 8 (by unfold RPC; omega),
    beGet_beSet_out _ _ _ 12 (by unfold RPC; omega),
    beGet_beSet_out _ _ _ 16 (by unfold RPC; omega),
    beGet_beSet_out _ _ _ 20 (by unfold RPC; omega),
    beGet_beSet_out _ _ _ 24 (by unfold RPC; omega),
    beGet_beSet_out _ _ _ 28 (by unfold RPC; omega),
    beGet_beSet_same _ RPC _,
    Nat.mod_eq_of_lt (show beGet c.registers.data RPC + 5 < W32 by omega)]
  simp only [Option.pure_def, Option.bind_eq_bind, Option.some_bind]
  rw [set_reg_some _ RPC _ (show RPC + 3 < 52 by unfold RPC; omega)]
  simp only [Option.pure_def, Option.bind_eq_bind, Option.some_bind]
  rw [step_eq _ rfl]
  rw [beGet_beSet_same _ RPC _, Nat.mod_eq_of_lt hTW, beSet_beSet_same]
  rw [byteAt_beSet_out _ _ _ T (by omega),
    byteAt_beSet_out _ _ _ T (by omega),
    byteAt_beSet_out _ _ _ T (by omega),
    byteAt_beSet_out _ _ _ T (by omega),
    byteAt_beSet_out _ _ _ T (by omega),
    byteAt_beSet_out _ _ _ T (by omega),
    byteAt_beSet_out _ _ _ T (by omega),
    byteAt_beSet_out _ _ _ T (by omega),
    byteAt_beSet_out _ _ _ T (by omega),
    byteAt_beSet_out _ _ _ T (by omega)]
  rw [hret, execute_ret_eq]
  rw [pop_state_eq _ rfl (by exact hstart)
    (by
      show beGet (beSet (beSet (beSet (beSet c.registers.data RPC (beGet c.registers.data RPC + 5)) RSP (beGet c.registers.data RSP - 40)) RFP (beGet c.registers.data RSP - 40)) RPC (wrap (T + 1))) RFP + 47 ≤ c.stack_start
      rw [beGet_beSet_out _ _ _ RFP (by unfold RPC RFP; omega),
        beGet_beSet_same _ RFP _,
        Nat.mod_eq_of_lt (show beGet c.registers.data RSP - 40 < W32 by omega)]
      omega)
    (by
      show 40 ≤ beGet (beSet (beSet (beSet (beSet (beSet (beSet (beSet (beSet (beSet (beSet (c.mem) (beGet c.registers.data RSP) (beGet c.registers.data 0)) (beGet c.registers.data RSP - 4) (beGet c.registers.data 4)) (beGet c.registers.data RSP - 8) (beGet c.registers.data 8)) (beGet c.registers.data RSP - 12) (beGet c.registers.data 12)) (beGet c.registers.data RSP - 16) (beGet c.registers.data 16)) (beGet c.registers.data RSP - 20) (beGet c.registers.data 20)) (beGet c.registers.data RSP - 24) (beGet c.registers.data 24)) (beGet c.registers.data RSP - 28) (beGet c.registers.data 28)) (beGet c.registers.data RSP - 32) (beGet c.registers.data RPC + 5)) (beGet c.registers.data RSP - 36) (c.stackframe_size + 40)) (beGet (beSet (beSet (beSet (beSet c.registers.data RPC (beGet c.registers.data RPC + 5)) RSP (beGet c.registers.data RSP - 40)) RFP (beGet c.registers.data RSP - 40)) RPC (wrap (T + 1))) RFP + 4)
      rw [beGet_beSet_out _ _ _ RFP (by unfold RPC RFP; omega),
        beGet_beSet_same _ RFP _,
        Nat.mod_eq_of_lt (show beGet c.registers.data RSP - 40 < W32 by omega),
        (by omega : beGet c.registers.data RSP - 40 + 4 = beGet c.registers.data RSP - 36),
        beGet_beSet_same _ (beGet c.registers.data RSP - 36) _,
        Nat.mod_eq_of_lt (show c.stackframe_size + 40 < W32 by omega)]
      omega)
    (by
      show beGet (beSet (beSet (beSet (beSet (beSet (beSet (beSet (beSet (beSet (beSet (c.mem) (beGet c.registers.data RSP) (beGet c.registers.data 0)) (beGet c.registers.data RSP - 4) (beGet c.registers.data 4)) (beGet c.registers.data RSP - 8) (beGet c.registers.data 8)) (beGet c.registers.data RSP - 12) (beGet c.registers.data 12)) (beGet c.registers.data RSP - 16) (beGet c.registers.data 16)) (beGet c.registers.data RSP - 20) (beGet c.registers.data 20)) (beGet c.registers.data RSP - 24) (beGet c.registers.data 24)) (beGet c.registers.data RSP - 28) (beGet c.registers.data 28)) (beGet c.registers.data RSP - 32) (beGet c.registers.data RPC + 5)) (beGet c.registers.data RSP - 36) (c.stackframe_size + 40)) (beGet (beSet (beSet (beSet (beSet c.registers.data RPC (beGet c.registers.data RPC + 5)) RSP (beGet c.registers.data RSP - 40)) RFP (beGet c.registers.data RSP - 40)) RPC (wrap (T + 1))) RFP + 44) = 0
      rw [beGet_beSet_out _ _ _ RFP (by unfold RPC RFP; omega),
        beGet_beSet_same _ RFP _,
        Nat.mod_eq_of_lt (show beGet c.registers.data RSP - 40 < W32 by omega),
        (by omega : beGet c.registers.data RSP - 40 + 44 = beGet c.registers.data RSP + 4),
        beGet_beSet_out _ _ _ (beGet c.registers.data RSP + 4) (by omega),
        beGet_beSet_out _ _ _ (beGet c.registers.data RSP + 4) (by omega),
        beGet_beSet_out _ _ _ (beGet c.registers.data RSP + 4) (by omega),
        beGet_beSet_out _ _ _ (beGet c.registers.data RSP + 4) (by omega),
        beGet_beSet_out _ _ _ (beGet c.registers.data RSP + 4) (by omega),
        beGet_beSet_out _ _ _ (beGet c.registers.data RSP + 4) (by omega),
        beGet_beSet_out _ _ _ (beGet c.registers.data RSP + 4) (by omega),
        beGet_beSet_out _ _ _ (beGet c.registers.data RSP + 4) (by omega),
        beGet_beSet_out _ _ _ (beGet c.registers.data RSP + 4) (by omega),
        beGet_beSet_out _ _ _ (beGet c.registers.data RSP + 4) (by omega)]
      exact harg0)
    (by
      show beGet (beSet (beSet (beSet (beSet c.registers.data RPC (beGet c.registers.data RPC + 5)) RSP (beGet c.registers.data RSP - 40)) RFP (beGet c.registers.data RSP - 40)) RPC (wrap (T + 1))) RFP +
        (beGet (beSet (beSet (beSet (beSet (beSet (beSet (beSet (beSet (beSet (beSet (c.mem) (beGet c.registers.data RSP) (beGet c.registers.data 0)) (beGet c.registers.data RSP - 4) (beGet c.registers.data 4)) (beGet c.registers.data RSP - 8) (beGet c.registers.data 8)) (beGet c.registers.data RSP - 12) (beGet c.registers.data 12)) (beGet c.registers.data RSP - 16) (beGet c.registers.data 16)) (beGet c.registers.data RSP - 20) (beGet c.registers.data 20)) (beGet c.registers.data RSP - 24) (beGet c.registers.data 24)) (beGet c.registers.data RSP - 28) (beGet c.registers.data 28)) (beGet c.registers.data RSP - 32) (beGet c.registers.data RPC + 5)) (beGet c.registers.data RSP - 36) (c.stackframe_size + 40)) (beGet (beSet (beSet (beSet (beSet c.registers.data RPC (beGet c.registers.data RPC + 5)) RSP (beGet c.registers.data RSP - 40)) RFP (beGet c.registers.data RSP - 40)) RPC (wrap (T + 1))) RFP + 4) - 40) < W32
      rw [beGet_beSet_out _ _ _ RFP (by unfold RPC RFP; omega),
        beGet_beSet_same _ RFP _,
        Nat.mod_eq_of_lt (show beGet c.registers.data RSP - 40 < W32 by omega),
        (by omega : beGet c.registers.data RSP - 40 + 4 = beGet c.registers.data RSP - 36),
        beGet_beSet_same _ (beGet c.registers.data RSP - 36) _,
        Nat.mod_eq_of_lt (show c.stackframe_size + 40 < W32 by omega)]
      omega)]
  rw [beGet_beSet_out _ _ _ RFP (by unfold RPC RFP; omega),
      beGet_beSet_same _ RFP _,
      Nat.mod_eq_of_lt (show beGet c.registers.data RSP - 40 < W32 by omega)]
  rw [(by omega : beGet c.registers.data RSP - 40 + 4 = beGet c.registers.data RSP - 36),
    (by omega : beGet c.registers.data RSP - 40 + 8 = beGet c.registers.data RSP - 32),
    (by omega : beGet c.registers.data RSP - 40 + 12 = beGet c.registers.data RSP - 28),
    (by omega : beGet c.registers.data RSP - 40 + 16 = beGet c.registers.data RSP - 24),
    (by omega : beGet c.registers.data RSP - 40 + 20 = beGet c.registers.data RSP - 20),
    (by omega : beGet c.registers.data RSP - 40 + 24 = beGet c.registers.data RSP - 16),
    (by omega : beGet c.registers.data RSP - 40 + 28 = beGet c.registers.data RSP - 12),
    (by omega : beGet c.registers.data RSP - 40 + 32 = beGet c.registers.data RSP - 8),
    (by omega : beGet c.registers.data RSP - 40 + 36 = beGet c.registers.data RSP - 4),
    (by omega : beGet c.registers.data RSP - 40 + 40 = beGet c.registers.data RSP),
    (by omega : beGet c.registers.data RSP - 40 + 44 = beGet c.registers.data RSP + 4)]
  rw [beGet_beSet_same _ (beGet c.registers.data RSP - 36) _,
    Nat.mod_eq_of_lt (show c.stackframe_size + 40 < W32 by omega),
    (by omega : c.stackframe_size + 40 - 40 = c.stackframe_size)]
  rw [beGet_beSet_out _ _ _ (beGet c.registers.data RSP - 32) (by omega),
    beGet_beSet_same _ (beGet c.registers.data RSP - 32) _,
    Nat.mod_eq_of_lt (show beGet c.registers.data RPC + 5 < W32 by omega)]
  rw [beGet_beSet_out _ _ _ (beGet c.registers.data RSP - 28) (by omega),
    beGet_beSet_out _ _ _ (beGet c.registers.data RSP - 28) (by omega),
    beGet_beSet_same _ (beGet c.registers.data RSP - 28) _,
    Nat.mod_eq_of_lt (beGet_lt c.registers.data 28)]
  rw [beGet_beSet_out _ _ _ (beGet c.registers.data RSP - 24) (by omega),
    beGet_beSet_out _ _ _ (beGet c.registers.data RSP - 24) (by omega),
    beGet_beSet_out _ _ _ (beGet c.registers.data RSP - 24) (by omega),
    beGet_beSet_same _ (beGet c.registers.data RSP - 24) _,
    Nat.mod_eq_of_lt (beGet_lt c.registers.data 24)]
  rw [beGet_beSet_out _ _ _ (beGet c.registers.data RSP - 20) (by omega),
    beGet_beSet_out _ _ _ (beGet c.registers.data RSP - 20) (by omega),
    beGet_beSet_out _ _ _ (beGet c.registers.data RSP - 20) (by omega),
    beGet_beSet_out _ _ _ (beGet c.registers.data RSP - 20) (by omega),
    beGet_beSet_same _ (beGet c.registers.data RSP - 20) _,
    Nat.mod_eq_of_lt (beGet_lt c.registers.data 20)]
  rw [beGet_beSet_out _ _ _ (beGet c.registers.data RSP - 16) (by omega),
    beGet_beSet_out _ _ _ (beGet c.registers.data RSP - 16) (by omega),
    beGet_beSet_out _ _ _ (beGet c.registers.data RSP - 16) (by omega),
    beGet_beSet_out _ _ _ (beGet c.registers.data RSP - 16) (by omega),
    beGet_beSet_out _ _ _ (beGet c.registers.data RSP - 16) (by omega),
    beGet_beSet_same _ (beGet c.registers.data RSP - 16) _,
    Nat.mod_eq_of_lt (beGet_lt c.registers.data 16)]
  rw [beGet_beSet_out _ _ _ (beGet c.registers.data RSP - 12) (by omega),
    beGet_beSet_out _ _ _ (beGet c.registers.data RSP - 12) (by omega),
    beGet_beSet_out _ _ _ (beGet c.registers.data RSP - 12) (by omega),
    beGet_beSet_out _ _ _ (beGet c.registers.data RSP - 12) (by omega),
    beGet_beSet_out _ _ _ (beGet c.registers.data RSP - 12) (by omega),
    beGet_beSet_out _ _ _ (beGet c.registers.data RSP - 12) (by omega),
    beGet_beSet_same _ (beGet c.registers.data RSP - 12) _,
    Nat.mod_eq_of_lt (beGet_lt c.registers.data 12)]
  rw [beGet_beSet_out _ _ _ (beGet c.registers.data RSP - 8) (by omega),
    beGet_beSet_out _ _ _ (beGet c.registers.data RSP - 8) (by omega),
    beGet_beSet_out _ _ _ (beGet c.registers.data RSP - 8) (by omega),
    beGet_beSet_out _ _ _ (beGet c.registers.data RSP - 8) (by omega),
    beGet_beSet_out _ _ _ (beGet c.registers.data RSP - 8) (by omega),
    beGet_beSet_out _ _ _ (beGet c.registers.data RSP - 8) (by omega),
    beGet_beSet_out _ _ _ (beGet c.registers.data RSP - 8) (by omega),
    beGet_beSet_same _ (beGet c.registers.data RSP - 8) _,
    Nat.mod_eq_of_lt (beGet_lt c.registers.data 8)]
  rw [beGet_beSet_out _ _ _ (beGet c.registers.data RSP - 4) (by omega),
    beGet_beSet_out _ _ _ (beGet c.registers.data RSP - 4) (by omega),
    beGet_beSet_out _ _ _ (beGet c.registers.data RSP - 4) (by omega),
    beGet_beSet_out _ _ _ (beGet c.registers.data RSP - 4) (by omega),
    beGet_beSet_out _ _ _ (beGet c.registers.data RSP - 4) (by omega),
    beGet_beSet_out _ _ _ (beGet c.registers.data RSP - 4) (by omega),
    beGet_beSet_out _ _ _ (beGet c.registers.data RSP - 4) (by omega),
    beGet_beSet_out _ _ _ (beGet c.registers.data RSP - 4) (by omega),
    beGet_beSet_same _ (beGet c.registers.data RSP - 4) _,
    Nat.mod_eq_of_lt (beGet_lt c.registers.data 4)]
  rw [beGet_beSet_out _ _ _ (beGet c.registers.data RSP) (by omega),
    beGet_beSet_out _ _ _ (beGet c.registers.data RSP) (by omega),
    beGet_beSet_out _ _ _ (beGet c.registers.data RSP) (by omega),
    beGet_beSet_out _ _ _ (beGet c.registers.data RSP) (by omega),
    beGet_beSet_out _ _ _ (beGet c.registers.data RSP) (by omega),
    beGet_beSet_out _ _ _ (beGet c.registers.data RSP) (by omega),
    beGet_beSet_out _ _ _ (beGet c.registers.data RSP) (by omega),
    beGet_beSet_out _ _ _ (beGet c.registers.data RSP) (by omega),
    beGet_beSet_out _ _ _ (beGet c.registers.data RSP) (by omega),
    beGet_beSet_same _ (beGet c.registers.data RSP) _,
    Nat.mod_eq_of_lt (beGet_lt c.registers.data 0)]
  simp only [Option.map_some']
  rw [get_reg_some _ 0 (show 0 + 3 < 52 by omega),
    get_reg_some _ 4 (show 4 + 3 < 52 by omega),
    get_reg_some _ 8 (show 8 + 3 < 52 by omega),
    get_reg_some _ 12 (show 12 + 3 < 52 by omega),
    get_reg_some _ 16 (show 16 + 3 < 52 by omega),
    get_reg_some _ 20 (show 20 + 3 < 52 by omega),
    get_reg_some _ 24 (show 24 + 3 < 52 by omega),
    get_reg_some _ 28 (show 28 + 3 < 52 by omega),
    get_reg_some _ RPC (show RPC + 3 < 52 by unfold RPC; omega),
    get_reg_some _ RSP (show RSP + 3 < 52 by unfold RSP; omega),
    get_reg_some _ RFP (show RFP + 3 < 52 by unfold RFP; omega)]
  rw [get_reg_some c 0 (by rw [hsize]; omega),
    get_reg_some c 4 (by rw [hsize]; omega),
    get_reg_some c 8 (by rw [hsize]; omega),
    get_reg_some c 12 (by rw [hsize]; omega),
    get_reg_some c 16 (by rw [hsize]; omega),
    get_reg_some c 20 (by rw [hsize]; omega),
    get_reg_some c 24 (by rw [hsize]; omega),
    get_reg_some c 28 (by rw [hsize]; omega)]
  rw [beGet_beSet_same _ RFP _,
    Nat.mod_eq_of_lt (show beGet c.registers.data RSP - 40 + c.stackframe_size < W32 by omega)]
  rw [beGet_beSet_out _ _ _ RSP (by unfold RSP RFP; omega),
    beGet_beSet_same _ RSP _,
    Nat.mod_eq_of_lt (show beGet c.registers.data RSP + 4 < W32 by omega)]
  rw [beGet_beSet_out _ _ _ 0 (by unfold RFP; omega),
    beGet_beSet_out _ _ _ 0 (by unfold RSP; omega),
    beGet_beSet_same _ 0 _,
    Nat.mod_eq_of_lt (beGet_lt c.registers.data 0)]
  rw [beGet_beSet_out _ _ _ 4 (by unfold RFP; omega),
    beGet_beSet_out _ _ _ 4 (by unfold RSP; omega),
    beGet_beSet_out _ _ _ 4 (by omega),
    beGet_beSet_out _ _ _ 4 (by unfold RSP; omega),
    beGet_beSet_same _ 4 _,
    Nat.mod_eq_of_lt (beGet_lt c.registers.data 4)]
  rw [beGet_beSet_out _ _ _ 8 (by unfold RFP; omega),
    beGet_beSet_out _ _ _ 8 (by unfold RSP; omega),
    beGet_beSet_out _ _ _ 8 (by omega),
    beGet_beSet_out _ _ _ 8 (by unfold RSP; omega),
    beGet_beSet_out _ _ _ 8 (by omega),
    beGet_beSet_out _ _ _ 8 (by unfold RSP; omega),
    beGet_beSet_same _ 8 _,
    Nat.mod_eq_of_lt (beGet_lt c.registers.data 8)]
  rw [beGet_beSet_out _ _ _ 12 (by unfold RFP; omega),
    beGet_beSet_out _ _ _ 12 (by unfold RSP; omega),
    beGet_beSet_out _ _ _ 12 (by omega),
    beGet_beSet_out _ _ _ 12 (by unfold RSP; omega),
    beGet_beSet_out _ _ _ 12 (by omega),
    beGet_beSet_out _ _ _ 12 (by unfold RSP; omega),
    beGet_beSet_out _ _ _ 12 (by omega),
    beGet_beSet_out _ _ _ 12 (by unfold RSP; omega),
    beGet_beSet_same _ 12 _,
    Nat.mod_eq_of_lt (beGet_lt c.registers.data 12)]
  rw [beGet_beSet_out _ _ _ 16 (by unfold RFP; omega),
    beGet_beSet_out _ _ _ 16 (by unfold RSP; omega),
    beGet_beSet_out _ _ _ 16 (by omega),
    beGet_beSet_out _ _ _ 16 (by unfold RSP; omega),
    beGet_beSet_out _ _ _ 16 (by omega),
    beGet_beSet_out _ _ _ 16 (by unfold RSP; omega),
    beGet_beSet_out _ _ _ 16 (by omega),
    beGet_beSet_out _ _ _ 16 (by unfold RSP; omega),
    beGet_beSet_out _ _ _ 16 (by omega),
    beGet_beSet_out _ _ _ 16 (by unfold RSP; omega),
    beGet_beSet_same _ 16 _,
    Nat.mod_eq_of_lt (beGet_lt c.registers.data 16)]
  rw [beGet_beSet_out _ _ _ 20 (by unfold RFP; omega),
    beGet_beSet_out _ _ _ 20 (by unfold RSP; omega),
    beGet_beSet_out _ _ _ 20 (by omega),
    beGet_beSet_out _ _ _ 20 (by unfold RSP; omega),
    beGet_beSet_out _ _ _ 20 (by omega),
    beGet_beSet_out _ _ _ 20 (by unfold RSP; omega),
    beGet_beSet_out _ _ _ 20 (by omega),
    beGet_beSet_out _ _ _ 20 (by unfold RSP; omega),
    beGet_beSet_out _ _ _ 20 (by omega),
    beGet_beSet_out _ _ _ 20 (by unfold RSP; omega),
    beGet_beSet_out _ _ _ 20 (by omega),
    beGet_beSet_out _ _ _ 20 (by unfold RSP; omega),
    beGet_beSet_same _ 20 _,
    Nat.mod_eq_of_lt (beGet_lt c.registers.data 20)]
  rw [beGet_beSet_out _ _ _ 24 (by unfold RFP; omega),
    beGet_beSet_out _ _ _ 24 (by unfold RSP; omega),
    beGet_beSet_out _ _ _ 24 (by omega),
    beGet_beSet_out _ _ _ 24 (by unfold RSP; omega),
    beGet_beSet_out _ _ _ 24 (by omega),
    beGet_beSet_out _ _ _ 24 (by unfold RSP; omega),
    beGet_beSet_out _ _ _ 24 (by omega),
    beGet_beSet_out _ _ _ 24 (by unfold RSP; omega),
    beGet_beSet_out _ _ _ 24 (by omega),
    beGet_beSet_out _ _ _ 24 (by unfold RSP; omega),
    beGet_beSet_out _ _ _ 24 (by omega),
    beGet_beSet_out _ _ _ 24 (by unfold RSP; omega),
    beGet_beSet_out _ _ _ 24 (by omega),
    beGet_beSet_out _ _ _ 24 (by unfold RSP; omega),
    beGet_beSet_same _ 24 _,
    Nat.mod_eq_of_lt (beGet_lt c.registers.data 24)]
  rw [beGet_beSet_out _ _ _ 28 (by unfold RFP; omega),
    beGet_beSet_out _ _ _ 28 (by unfold RSP; omega),
    beGet_beSet_out _ _ _ 28 (by omega),
    beGet_beSet_out _ _ _ 28 (by unfold RSP; omega),
    beGet_beSet_out _ _ _ 28 (by omega),
    beGet_beSet_out _ _ _ 28 (by unfold RSP; omega),
    beGet_beSet_out _ _ _ 28 (by omega),
    beGet_beSet_out _ _ _ 28 (by unfold RSP; omega),
    beGet_beSet_out _ _ _ 28 (by omega),
    beGet_beSet_out _ _ _ 28 (by unfold RSP; omega),
    beGet_beSet_out _ _ _ 28 (by omega),
    beGet_beSet_out _ _ _ 28 (by unfold RSP; omega),
    beGet_beSet_out _ _ _ 28 (by omega),
    beGet_beSet_out _ _ _ 28 (by unfold RSP; omega),
    beGet_beSet_out _ _ _ 28 (by omega),
    beGet_beSet_out _ _ _ 28 (by unfold RSP; omega),
    beGet_beSet_same _ 28 _,
    Nat.mod_eq_of_lt (beGet_lt c.registers.data 28)]
  rw [beGet_beSet_out _ _ _ RPC (by unfold RPC RFP; omega),
    beGet_beSet_out _ _ _ RPC (by unfold RPC RSP; omega),
    beGet_beSet_out _ _ _ RPC (by unfold RPC; omega),
    beGet_beSet_out _ _ _ RPC (by unfold RPC RSP; omega),
    beGet_beSet_out _ _ _ RPC (by unfold RPC; omega),
    beGet_beSet_out _ _ _ RPC (by unfold RPC RSP; omega),
    beGet_beSet_out _ _ _ RPC (by unfold RPC; omega),
    beGet_beSet_out _ _ _ RPC (by unfold RPC RSP; omega),
    beGet_beSet_out _ _ _ RPC (by unfold RPC; omega),
    beGet_beSet_out _ _ _ RPC (by unfold RPC RSP; omega),
    beGet_beSet_out _ _ _ RPC (by unfold RPC; omega),
    beGet_beSet_out _ _ _ RPC (by unfold RPC RSP; omega),
    beGet_beSet_out _ _ _ RPC (by unfold RPC; omega),
    beGet_beSet_out _ _ _ RPC (by unfold RPC RSP; omega),
    beGet_beSet_out _ _ _ RPC (by unfold RPC; omega),
    beGet_beSet_out _ _ _ RPC (by unfold RPC RSP; omega),
    beGet_beSet_out _ _ _ RPC (by unfold RPC; omega),
    beGet_beSet_out _ _ _ RPC (by unfold RPC RSP; omega),
    beGet_beSet_same _ RPC _,
    Nat.mod_eq_of_lt (show beGet c.registers.data RPC + 5 < W32 by omega)]

/-- Fixture for the CALL/RET round trip: program `progC1` (`CALL 100` at
0, `RET` at 100), stack `[0xF000, 0x10000)`, `sp = 0xFFF8`,
`fp = 0xFFFC`, `stackframe_size = 4`, and the word on top of the stack
(at `sp + 4 = 0xFFFC`) is 0. -/
def cC1 : CPU :=
  { mem := progC1
    registers := ⟨52, beSet (beSet (fun _ => 0) RSP 0xFFF8) RFP 0xFFFC⟩
    stackframe_size := 4
    halt_signal := false
    stack_start := 0x10000
    stack_size := 0x1000
    stack_set := true }

/-- Witness for C1 at the fixture state: the hypotheses are satisfiable
and the corrected round-trip conclusion holds there. -/
theorem claim_C1_witness :
    (cC1.step.bind CPU.step).map (fun c2 =>
        (c2.get_reg 0, c2.get_reg 4, c2.get_reg 8, c2.get_reg 12,
         c2.get_reg 16, c2.get_reg 20, c2.get_reg 24, c2.get_reg 28,
         c2.get_reg RPC, c2.get_reg RSP, c2.get_reg RFP,
         c2.stackframe_size)) =
      some (cC1.get_reg 0, cC1.get_reg 4, cC1.get_reg 8, cC1.get_reg 12,
         cC1.get_reg 16, cC1.get_reg 20, cC1.get_reg 24, cC1.get_reg 28,
         some (beGet cC1.registers.data RPC + 5),
         some (beGet cC1.registers.data RSP + 4),
         some (beGet cC1.registers.data RSP - 40 + cC1.stackframe_size),
         cC1.stackframe_size) :=
  claim_C1 cC1 100 rfl rfl (by decide) (by decide) (by decide) (by decide)
    (by decide) (by decide) (by decide) (by decide) (by decide) (by decide)
    (by decide) (by decide) (by decide)
